import Mathlib

/-!
# WardrobeManager — verification of the spec claims

Shallow embedding of the parts of the WardrobeManager repository that the
claims C1–C10 talk about:

* the AI-classification adapters (`src/frontend/src/lib/gemini.ts`, the
  OpenAI client in `src/backend/src/lib/db.ts`, the second Gemini client in
  `src/unnamed/part_016`, the HuggingFace client in `src/unnamed/part_017`),
* the retry wrappers `fetchWithBackoff` / `fetchWithRetry`,
* the item CRUD / laundry-action route handlers
  (`src/frontend/src/app/api/items/[id]/route.ts`, `src/unnamed/part_015`,
  `src/unnamed/part_003`, `src/unnamed/part_014`,
  `src/backend/src/app/api/upload/route.ts`),
* the outfit-suggestion engine
  (`src/backend/src/app/api/outfits/suggest/route.ts`).

JavaScript strings are modelled as `List Char` (`JStr`); JavaScript string
methods used by the source are given executable Lean counterparts.  Network
effects are modelled by passing the outcome of each remote call explicitly
(`Except Unit _` for code that may throw, an environment `Nat → FetchOutcome`
for the retry loops).  Database writes are modelled by explicit state passing
over a `List Item`.
-/

set_option maxRecDepth 1000000

namespace Wardrobe

/-! ## JavaScript string primitives (on `List Char`) -/

abbrev JStr := List Char

/-- The double-quote character. -/
def quoteC : Char := Char.ofNat 34

/-- The single-quote character. -/
def apostC : Char := Char.ofNat 39

/-- The backtick character (used by the markdown code-fence regex). -/
def tickC : Char := Char.ofNat 96

/-- JavaScript whitespace (the subset produced/tested by this code base). -/
def isJsWs (c : Char) : Bool := c = ' ' || c = '\n' || c = '\r' || c = '\t'

/-- JavaScript `String.prototype.trim`. -/
def jsTrim (s : JStr) : JStr :=
  ((s.dropWhile isJsWs).reverse.dropWhile isJsWs).reverse

/-- JavaScript `String.prototype.toUpperCase` (ASCII, as used by the source). -/
def jsUpper (s : JStr) : JStr := s.map Char.toUpper

/-- JavaScript `String.prototype.toLowerCase` (ASCII, as used by the source). -/
def jsLower (s : JStr) : JStr := s.map Char.toLower

/-- Does `pat` occur at the start of the string? -/
def jsStartsWith : JStr → JStr → Bool
  | _, [] => true
  | [], _ :: _ => false
  | c :: cs, p :: ps => c = p && jsStartsWith cs ps

/-- JavaScript `String.prototype.includes` (substring occurrence). -/
def jsIncludes (s pat : JStr) : Bool :=
  match s with
  | [] => pat.isEmpty
  | _ :: rest => jsStartsWith s pat || jsIncludes rest pat

/-- JavaScript `str.replace(/[c...]/g, "")`: delete every listed character. -/
def removeChars (bad : List Char) (s : JStr) : JStr :=
  s.filter (fun c => !(bad.contains c))

/-- Split on single separator characters.  The source always post-composes the
split with a non-empty filter, under which splitting on single separators and
splitting on separator runs (`/[\r\n,]+/`, `/\s+/`) agree. -/
def splitSep (p : Char → Bool) : JStr → List JStr
  | [] => [[]]
  | c :: cs =>
    if p c then [] :: splitSep p cs
    else
      match splitSep p cs with
      | [] => [[c]]
      | h :: t => (c :: h) :: t

/-- JavaScript `str.split(/\r?\n/)`. -/
def splitLinesJs : JStr → List JStr
  | [] => [[]]
  | '\r' :: '\n' :: rest => [] :: splitLinesJs rest
  | '\n' :: rest => [] :: splitLinesJs rest
  | c :: rest =>
    match splitLinesJs rest with
    | [] => [[c]]
    | h :: t => (c :: h) :: t

/-- Separator class of the colour-splitting regex `/[\r\n,]+/`. -/
def isColorSep (c : Char) : Bool := c = '\r' || c = '\n' || c = ','

/-- JavaScript `str.split(/\s+/)[0]` on the (already trimmed or untrimmed)
string: the leading run of non-whitespace characters (empty if the string
starts with whitespace, matching the JS behaviour of a leading empty field). -/
def firstWordJs (s : JStr) : JStr := s.takeWhile (fun c => !(isJsWs c))

/-- JavaScript `str.split(/\r?\n/)[0]`. -/
def firstLineJs (s : JStr) : JStr :=
  let pre := s.takeWhile (fun c => c ≠ '\n')
  if pre.length = s.length then pre
  else if pre.getLast? = some '\r' then pre.dropLast else pre

/-- JavaScript `str.replace(/^["']|["']$/g, "")`: drop one leading and one
trailing quote character. -/
def stripEdgeQuotes (s : JStr) : JStr :=
  let s1 := match s with
    | c :: rest => if c = quoteC || c = apostC then rest else s
    | [] => []
  match s1.getLast? with
  | some c => if c = quoteC || c = apostC then s1.dropLast else s1
  | none => s1

/-- Is the next character whitespace (the `\s+` requirement after a matched
alternative)? -/
def nextIsWs (s : JStr) : Bool :=
  match s with
  | c :: _ => isJsWs c
  | [] => false

/-- JavaScript `str.replace(/^(a1|a2|...)\s+/i, "")`: the alternatives are
tried left to right (with regex backtracking, an alternative only matches when
followed by whitespace), then the matched alternative and the following
whitespace run are removed. -/
def stripLeadPhrase (alts : List JStr) (s : JStr) : JStr :=
  match alts.find? (fun a => jsStartsWith (jsLower s) a && nextIsWs (s.drop a.length)) with
  | some a => (s.drop a.length).dropWhile isJsWs
  | none => s

/-- JavaScript word character class `\w`. -/
def isWordChar (c : Char) : Bool :=
  ('a' ≤ c && c ≤ 'z') || ('A' ≤ c && c ≤ 'Z') || ('0' ≤ c && c ≤ '9') || c = '_'

/-- Drop one leading newline (the `\n?` of the code-fence regex). -/
def dropOneNewline (s : JStr) : JStr :=
  match s with
  | '\n' :: rest => rest
  | _ => s

/-- Worker for the code-fence stripper; the fuel argument (instantiated with
the string length, which bounds the number of scanning steps) only serves to
make the left-to-right regex scan structurally recursive. -/
def stripFencesAux : Nat → JStr → JStr
  | 0, s => s
  | fuel + 1, s =>
    match s with
    | c1 :: c2 :: c3 :: rest =>
      if c1 = tickC && c2 = tickC && c3 = tickC then
        stripFencesAux fuel (dropOneNewline (rest.dropWhile isWordChar))
      else
        c1 :: stripFencesAux fuel (c2 :: c3 :: rest)
    | s => s

/-- JavaScript `str.replace(/```[\w]*\n?/g, "")`. -/
def stripFences (s : JStr) : JStr := stripFencesAux s.length s

/-- JavaScript `name.charAt(0).toUpperCase() + name.slice(1)`. -/
def capitalizeJs : JStr → JStr
  | [] => []
  | c :: rest => Char.toUpper c :: rest

/-! ## A small model of `JSON.parse` for the shapes this code base tests

The adapters only inspect `JSON.parse` results through `Array.isArray` and
element stringification, so JSON documents are modelled as either an array of
stringified scalar elements or a non-array scalar.  String escapes, fractional
numbers and object documents are not modelled (they behave here like parse
failures); no theorem below depends on those inputs. -/

def skipWs (s : JStr) : JStr := s.dropWhile isJsWs

def isDigitC (c : Char) : Bool := '0' ≤ c && c ≤ '9'

/-- Scan a JSON string literal body (after the opening quote): content up to
the closing quote. -/
def scanStringLit : JStr → Option (JStr × JStr)
  | [] => none
  | c :: rest =>
    if c = quoteC then some ([], rest)
    else
      match scanStringLit rest with
      | some (content, rem) => some (c :: content, rem)
      | none => none

/-- Scan an (integer) JSON number. -/
def scanNumber (s : JStr) : Option (JStr × JStr) :=
  let (neg, s1) : JStr × JStr :=
    match s with
    | '-' :: r => (['-'], r)
    | _ => ([], s)
  let digits := s1.takeWhile isDigitC
  if digits.isEmpty then none else some (neg ++ digits, s1.drop digits.length)

/-- Scan one scalar JSON element, returned in its `String(c)` form. -/
def scanElem (s : JStr) : Option (JStr × JStr) :=
  match s with
  | c :: rest =>
    if c = quoteC then scanStringLit rest
    else if jsStartsWith s "true".data then some ("true".data, s.drop 4)
    else if jsStartsWith s "false".data then some ("false".data, s.drop 5)
    else if jsStartsWith s "null".data then some ("null".data, s.drop 4)
    else scanNumber s
  | [] => none

/-- Scan the comma-separated elements of an array body up to the closing
bracket.  The fuel (instantiated with the body length) makes the scan
structural. -/
def scanElems : Nat → JStr → Option (List JStr × JStr)
  | 0, _ => none
  | fuel + 1, s =>
    match scanElem (skipWs s) with
    | none => none
    | some (v, rem) =>
      match skipWs rem with
      | ',' :: rem2 =>
        match scanElems fuel rem2 with
        | some (vs, r) => some (v :: vs, r)
        | none => none
      | ']' :: rem2 => some ([v], rem2)
      | _ => none

/-- Parse a whole JSON array document (surrounding whitespace tolerated). -/
def parseJsonArr (s : JStr) : Option (List JStr) :=
  match jsTrim s with
  | '[' :: rest =>
    match skipWs rest with
    | ']' :: rem => if (skipWs rem).isEmpty then some [] else none
    | body =>
      match scanElems (body.length + 1) body with
      | some (vs, rem) => if (skipWs rem).isEmpty then some vs else none
      | none => none
  | _ => none

/-- Result of `JSON.parse` as observed by this code base. -/
inductive JsonDoc where
  | arr (elems : List JStr)
  | scalar
deriving DecidableEq

/-- `JSON.parse` on a whole document: `none` models a thrown `SyntaxError`. -/
def jsonParseDoc (s : JStr) : Option JsonDoc :=
  match jsTrim s with
  | '[' :: rest => (parseJsonArr ('[' :: rest)).map JsonDoc.arr
  | t =>
    match scanElem t with
    | some (_, rem) => if (skipWs rem).isEmpty then some JsonDoc.scalar else none
    | none => none

/-- JavaScript `text.match(/\[[\s\S]*?\]/)`: the (lazy) slice from the first
opening bracket to the first closing bracket after it. -/
def firstBracketSlice : JStr → Option JStr
  | [] => none
  | c :: rest =>
    if c = '[' then
      if rest.any (fun d => d = ']') then
        some ('[' :: rest.takeWhile (fun d => d ≠ ']') ++ [']'])
      else none
    else firstBracketSlice rest

/-! ## Retry wrappers (`fetchWithBackoff` in `gemini.ts` / `part_016`,
`fetchWithRetry` in the OpenAI and HuggingFace clients)

A network environment assigns to every attempt index the outcome of that
`fetch` call: either a thrown transport exception or a response with a status
code.  A trace records the wrapper result (`Except.error ()` models a thrown
error), the number of `fetch` calls made, and the list of back-off delays
slept (in order). -/

inductive FetchOutcome where
  | exn
  | resp (status : Nat)
deriving DecidableEq

structure FetchTrace where
  result : Except Unit Nat
  calls : Nat
  delays : List Nat

/-- `response.ok`: status in the 2xx range. -/
def respOk (s : Nat) : Bool := 200 ≤ s && s < 300

/-- `fetchWithBackoff` from `src/frontend/src/lib/gemini.ts` (identical in
`src/unnamed/part_016`): retries 5xx/429 responses and transport exceptions
with doubled delay while retries remain; throws once the budget is exhausted;
returns any other non-2xx response to the caller unretried. -/
def fetchWithBackoff (env : Nat → FetchOutcome) (k retries delay : Nat) : FetchTrace :=
  match env k with
  | .resp s =>
    if !(respOk s) then
      if 500 ≤ s || s = 429 then
        match retries with
        | rr + 1 =>
          let t := fetchWithBackoff env (k + 1) rr (delay * 2)
          ⟨t.result, t.calls + 1, delay :: t.delays⟩
        | 0 => ⟨.error (), 1, []⟩
      else ⟨.ok s, 1, []⟩
    else ⟨.ok s, 1, []⟩
  | .exn =>
    match retries with
    | rr + 1 =>
      let t := fetchWithBackoff env (k + 1) rr (delay * 2)
      ⟨t.result, t.calls + 1, delay :: t.delays⟩
    | 0 => ⟨.error (), 1, []⟩

/-- `fetchWithRetry` from the OpenAI client in `src/backend/src/lib/db.ts`
(identical in the HuggingFace client, `src/unnamed/part_017`): like
`fetchWithBackoff` but once the budget is exhausted a 5xx/429 response is
returned to the caller instead of being thrown. -/
def fetchWithRetry (env : Nat → FetchOutcome) (k retries delay : Nat) : FetchTrace :=
  match env k with
  | .resp s =>
    if !(respOk s) then
      if 500 ≤ s || s = 429 then
        match retries with
        | rr + 1 =>
          let t := fetchWithRetry env (k + 1) rr (delay * 2)
          ⟨t.result, t.calls + 1, delay :: t.delays⟩
        | 0 => ⟨.ok s, 1, []⟩
      else ⟨.ok s, 1, []⟩
    else ⟨.ok s, 1, []⟩
  | .exn =>
    match retries with
    | rr + 1 =>
      let t := fetchWithRetry env (k + 1) rr (delay * 2)
      ⟨t.result, t.calls + 1, delay :: t.delays⟩
    | 0 => ⟨.error (), 1, []⟩

/-- The default retry budget of `fetchWithBackoff` (`retries = 5`). -/
def backoffDefaultRetries : Nat := 5

/-- The default retry budget of `fetchWithRetry` (`retries = 3`). -/
def retryDefaultRetries : Nat := 3

/-! ### The HuggingFace `analyzeImage` outer retry loop

`HuggingFaceClient.analyzeImage` (`src/unnamed/part_017`) wraps
`fetchWithRetry` (budget 3, base delay 1000) and then, on a 503 or 429
response, sleeps a constant 5000 ms (resp. 10000 ms) and re-invokes itself —
with no budget at all.  The trace records the total number of `fetch` calls.
The `fuel` argument only cuts off the otherwise unbounded recursion so the
model stays total: with fuel `f` and a persistently failing environment the
loop performs `4 * f` fetch calls, a quantity unbounded in `f`. -/

structure HfTrace where
  result : Except Unit JStr
  calls : Nat

def hfAnalyzeImage (env : Nat → FetchOutcome) (cap : Nat → Option JStr)
    (hasKey : Bool) : Nat → Nat → HfTrace
  | 0, _ => ⟨.error (), 0⟩
  | fuel + 1, k =>
    if !hasKey then ⟨.error (), 0⟩
    else
      let t := fetchWithRetry env k 3 1000
      match t.result with
      | .error _ => ⟨.error (), t.calls⟩
      | .ok s =>
        if !(respOk s) then
          if s = 410 then ⟨.ok "A clothing item".data, t.calls⟩
          else if s = 503 then
            let u := hfAnalyzeImage env cap hasKey fuel (k + t.calls)
            ⟨u.result, t.calls + u.calls⟩
          else if s = 429 then
            let u := hfAnalyzeImage env cap hasKey fuel (k + t.calls)
            ⟨u.result, t.calls + u.calls⟩
          else ⟨.error (), t.calls⟩
        else
          match cap k with
          | some c => ⟨.ok c, t.calls⟩
          | none => ⟨.error (), t.calls⟩

/-! ## AI classification adapters

Inputs to the classification helpers are modelled as the outcome of the
provider's `analyzeImage` call: `Except.error ()` covers a thrown transport
error, a non-2xx response (the Gemini and OpenAI `analyzeImage` throw on
`!response.ok`), and empty output (they throw on an empty parsed text / empty
`content`); `Except.ok text` is the returned response text. -/

abbrev AIOut := Except Unit JStr

def validTypes : List JStr :=
  ["TOP".data, "BOTTOM".data, "DRESS".data, "OUTERWEAR".data, "SHOES".data,
   "ACCESSORY".data, "UNDERWEAR".data, "SWIMWEAR".data, "SPORTSWEAR".data]

def validOccasions : List JStr :=
  ["CASUAL".data, "WORK".data, "FORMAL".data, "PARTY".data, "SPORTS".data,
   "BEACH".data, "DATE_NIGHT".data, "TRAVEL".data]

def validSeasons : List JStr :=
  ["SPRING".data, "SUMMER".data, "FALL".data, "WINTER".data, "ALL_SEASON".data]

/-- The cleaning step `resp.trim().toUpperCase().replace(/["'.]/g, '')` of the
occasion/season/frontend-type classifiers. -/
def cleanedEnum (resp : JStr) : JStr :=
  removeChars [quoteC, apostC, '.'] (jsUpper (jsTrim resp))

/-- The cleaning step `resp.trim().toUpperCase().replace(/["'.,;:!?]/g, '')`
of the backend clothing-type classifiers. -/
def cleanedType (resp : JStr) : JStr :=
  removeChars [quoteC, apostC, '.', ',', ';', ':', '!', '?'] (jsUpper (jsTrim resp))

/-- Shared shape of the occasion/season (and frontend type) classifiers:
clean the response, accept an exact enum value, otherwise scan the uppercased
response for any enum value, otherwise return the default. -/
def parseEnumToken (valid : List JStr) (deflt : JStr) (resp : JStr) : JStr :=
  if cleanedEnum resp ∈ valid then cleanedEnum resp
  else
    match valid.find? (fun t => jsIncludes (jsUpper resp) t) with
    | some t => t
    | none => deflt

/-- The backend clothing-type classifier shape (OpenAI client, `part_016`
Gemini client, HuggingFace client): clean, try the first word, scan for an
enum value, then scan a keyword map, then default to `TOP`. -/
def parseTypeMap (typeMap : List (JStr × JStr)) (resp : JStr) : JStr :=
  if firstWordJs (cleanedType resp) ∈ validTypes then firstWordJs (cleanedType resp)
  else
    match validTypes.find? (fun t => jsIncludes (cleanedType resp) t) with
    | some t => t
    | none =>
      match typeMap.find? (fun kv => jsIncludes (cleanedType resp) kv.1) with
      | some kv => kv.2
      | none => "TOP".data

/-! ### Unparseable-output predicates

An output is unparseable for a classifier when every parse stage of that
classifier fails: these predicates name exactly the stage conditions of the
corresponding pipelines. -/

abbrev unparsedEnum (valid : List JStr) (text : JStr) : Prop :=
  cleanedEnum text ∉ valid ∧ ∀ t ∈ valid, jsIncludes (jsUpper text) t = false

abbrev unparsedType (tm : List (JStr × JStr)) (text : JStr) : Prop :=
  firstWordJs (cleanedType text) ∉ validTypes ∧
  (∀ t ∈ validTypes, jsIncludes (cleanedType text) t = false) ∧
  (∀ kv ∈ tm, jsIncludes (cleanedType text) kv.1 = false)

/-- The `typeMap` of the `part_016` Gemini client (no jewelry entries). -/
def typeMapG16 : List (JStr × JStr) :=
  [("SHIRT".data, "TOP".data), ("T-SHIRT".data, "TOP".data), ("TSHIRT".data, "TOP".data),
   ("BLOUSE".data, "TOP".data), ("SWEATER".data, "TOP".data), ("HOODIE".data, "TOP".data),
   ("PANT".data, "BOTTOM".data), ("JEAN".data, "BOTTOM".data), ("TROUSER".data, "BOTTOM".data),
   ("SHORT".data, "BOTTOM".data), ("SKIRT".data, "BOTTOM".data),
   ("JACKET".data, "OUTERWEAR".data), ("COAT".data, "OUTERWEAR".data), ("BLAZER".data, "OUTERWEAR".data),
   ("SNEAKER".data, "SHOES".data), ("BOOT".data, "SHOES".data), ("SANDAL".data, "SHOES".data),
   ("HEEL".data, "SHOES".data),
   ("BAG".data, "ACCESSORY".data), ("HAT".data, "ACCESSORY".data), ("BELT".data, "ACCESSORY".data),
   ("SWIMSUIT".data, "SWIMWEAR".data), ("BIKINI".data, "SWIMWEAR".data),
   ("ATHLETIC".data, "SPORTSWEAR".data), ("SPORT".data, "SPORTSWEAR".data), ("GYM".data, "SPORTSWEAR".data)]

/-- The `typeMap` of the OpenAI and HuggingFace clients (jewelry entries after
`BELT`). -/
def typeMapJewel : List (JStr × JStr) :=
  [("SHIRT".data, "TOP".data), ("T-SHIRT".data, "TOP".data), ("TSHIRT".data, "TOP".data),
   ("BLOUSE".data, "TOP".data), ("SWEATER".data, "TOP".data), ("HOODIE".data, "TOP".data),
   ("PANT".data, "BOTTOM".data), ("JEAN".data, "BOTTOM".data), ("TROUSER".data, "BOTTOM".data),
   ("SHORT".data, "BOTTOM".data), ("SKIRT".data, "BOTTOM".data),
   ("JACKET".data, "OUTERWEAR".data), ("COAT".data, "OUTERWEAR".data), ("BLAZER".data, "OUTERWEAR".data),
   ("SNEAKER".data, "SHOES".data), ("BOOT".data, "SHOES".data), ("SANDAL".data, "SHOES".data),
   ("HEEL".data, "SHOES".data),
   ("BAG".data, "ACCESSORY".data), ("HAT".data, "ACCESSORY".data), ("BELT".data, "ACCESSORY".data),
   ("JEWELRY".data, "ACCESSORY".data), ("NECKLACE".data, "ACCESSORY".data),
   ("EARRING".data, "ACCESSORY".data), ("BRACELET".data, "ACCESSORY".data), ("RING".data, "ACCESSORY".data),
   ("SWIMSUIT".data, "SWIMWEAR".data), ("BIKINI".data, "SWIMWEAR".data),
   ("ATHLETIC".data, "SPORTSWEAR".data), ("SPORT".data, "SPORTSWEAR".data), ("GYM".data, "SPORTSWEAR".data)]

/-! ### Colour-extraction parse pipelines -/

/-- The text fallback of every colour extractor: strip brackets and quotes,
trim, split on `/[\r\n,]+/`, trim the fields and drop the empty ones. -/
def colorsSplitBase (text : JStr) : List JStr :=
  ((splitSep isColorSep (jsTrim (removeChars ['[', ']', quoteC, apostC] text))).map jsTrim).filter
    (fun x => !x.isEmpty)

/-- Frontend Gemini colour parsing: whole-text `JSON.parse` accepting any
array; on a thrown parse the split fallback; a successful non-array parse
falls through to `['Unknown']`. -/
def parseColorsFE (text : JStr) : List JStr :=
  match jsonParseDoc text with
  | some (JsonDoc.arr elems) => elems
  | some JsonDoc.scalar => ["Unknown".data]
  | none =>
    let possible := colorsSplitBase text
    if !possible.isEmpty then possible else ["Unknown".data]

/-- The split fallback executed by the `catch (parseErr)` branch of the
`part_016` Gemini colour extractor (length filter `< 20`, first 4 kept). -/
def colorsCatchG16 (text : JStr) : List JStr :=
  let possible := (colorsSplitBase text).filter (fun s => s.length < 20)
  if possible.length > 0 then possible.take 4 else ["Unknown".data]

/-- Whole-text parse stage of the `part_016` colour extractor. -/
def parseColorsWholeG16 (text : JStr) : List JStr :=
  match jsonParseDoc text with
  | none => colorsCatchG16 text
  | some (JsonDoc.arr elems) =>
    if elems.length > 0 then (elems.map jsTrim).filter (fun x => !x.isEmpty)
    else ["Unknown".data]
  | some JsonDoc.scalar => ["Unknown".data]

/-- `part_016` Gemini colour parsing: bracket-slice stage, then whole-text
stage, with the split fallback on a thrown parse. -/
def parseColorsG16 (text : JStr) : List JStr :=
  match firstBracketSlice text with
  | some sub =>
    match jsonParseDoc sub with
    | none => colorsCatchG16 text
    | some (JsonDoc.arr elems) =>
      if elems.length > 0 then (elems.map jsTrim).filter (fun x => !x.isEmpty)
      else parseColorsWholeG16 text
    | some JsonDoc.scalar => parseColorsWholeG16 text
  | none => parseColorsWholeG16 text

/-- The split fallback of the OpenAI/HuggingFace colour extractors (length
filter `> 2 && < 20`, first 4 kept). -/
def colorsCatchBE (text : JStr) : List JStr :=
  let possible := (colorsSplitBase text).filter (fun s => s.length < 20 && 2 < s.length)
  if possible.length > 0 then possible.take 4 else ["Unknown".data]

/-- Whole-text parse stage of the OpenAI/HuggingFace colour extractors. -/
def parseColorsWholeBE (text : JStr) : List JStr :=
  match jsonParseDoc text with
  | none => colorsCatchBE text
  | some (JsonDoc.arr elems) =>
    if elems.length > 0 then (elems.map jsTrim).filter (fun x => !x.isEmpty)
    else ["Unknown".data]
  | some JsonDoc.scalar => ["Unknown".data]

/-- OpenAI/HuggingFace colour parsing. -/
def parseColorsBE (text : JStr) : List JStr :=
  match firstBracketSlice text with
  | some sub =>
    match jsonParseDoc sub with
    | none => colorsCatchBE text
    | some (JsonDoc.arr elems) =>
      if elems.length > 0 then (elems.map jsTrim).filter (fun x => !x.isEmpty)
      else parseColorsWholeBE text
    | some JsonDoc.scalar => parseColorsWholeBE text
  | none => parseColorsWholeBE text

/-- All parse stages of the frontend colour extractor fail. -/
abbrev unparsedColorsFE (text : JStr) : Prop :=
  jsonParseDoc text = none ∧ colorsSplitBase text = []

/-- All parse stages of the backend colour extractors fail. -/
abbrev unparsedColorsBE (text : JStr) : Prop :=
  firstBracketSlice text = none ∧ jsonParseDoc text = none ∧ colorsSplitBase text = []

/-! ### Name-generation parse pipelines -/

/-- Frontend Gemini name cleaning: first line, trimmed, edge quotes removed,
trimmed. -/
def nameCoreFE (resp : JStr) : JStr :=
  jsTrim (stripEdgeQuotes (jsTrim (firstLineJs resp)))

/-- Alternatives of the `part_016` Gemini leading-phrase regex. -/
def g16Alts : List JStr :=
  ["this is a".data, "the item is".data, "it is".data, "it\x27s".data, "this is".data]

/-- Alternatives of the OpenAI/HuggingFace leading-phrase regex. -/
def beAlts : List JStr :=
  ["this is a".data, "the item is".data, "it is".data, "it\x27s".data, "this is".data,
   "name:".data, "item:".data]

/-- First non-blank line, or the whole response (`lines[0] || resp`). -/
def firstNonBlankLine (resp : JStr) : JStr :=
  (((splitLinesJs resp).filter (fun l => !(jsTrim l).isEmpty)).headD resp)

/-- `part_016` Gemini name cleaning (no code-fence stripping). -/
def nameCoreG16 (resp : JStr) : JStr :=
  capitalizeJs (jsTrim (stripLeadPhrase g16Alts (jsTrim (stripEdgeQuotes (firstNonBlankLine resp)))))

/-- OpenAI/HuggingFace name cleaning (with code-fence stripping). -/
def nameCoreBE (resp : JStr) : JStr :=
  capitalizeJs (jsTrim (stripFences (jsTrim (stripLeadPhrase beAlts
    (jsTrim (stripEdgeQuotes (firstNonBlankLine resp)))))))

/-! ### Frontend Gemini adapter (`src/frontend/src/lib/gemini.ts`) -/

namespace GeminiFE

def extractColorsFromImage (r : AIOut) : List JStr :=
  match r with
  | .error _ => ["Unknown".data]
  | .ok text => parseColorsFE text

def identifyClothingType (r : AIOut) : JStr :=
  match r with
  | .error _ => "TOP".data
  | .ok text => parseEnumToken validTypes "TOP".data text

def suggestOccasion (r : AIOut) : JStr :=
  match r with
  | .error _ => "CASUAL".data
  | .ok text => parseEnumToken validOccasions "CASUAL".data text

def suggestSeason (r : AIOut) : JStr :=
  match r with
  | .error _ => "ALL_SEASON".data
  | .ok text => parseEnumToken validSeasons "ALL_SEASON".data text

/-- Note the failure default `Unknown Item` — not `Clothing Item`. -/
def generateItemName (r : AIOut) : JStr :=
  match r with
  | .error _ => "Unknown Item".data
  | .ok text =>
    let name := nameCoreFE text
    if !name.isEmpty then name else "Unknown Item".data

end GeminiFE

/-! ### OpenAI adapter (in `src/backend/src/lib/db.ts`) -/

namespace OpenAIBE

def extractColorsFromImage (r : AIOut) : List JStr :=
  match r with
  | .error _ => ["Unknown".data]
  | .ok text => parseColorsBE text

def identifyClothingType (r : AIOut) : JStr :=
  match r with
  | .error _ => "TOP".data
  | .ok text => parseTypeMap typeMapJewel text

def suggestOccasion (r : AIOut) : JStr :=
  match r with
  | .error _ => "CASUAL".data
  | .ok text => parseEnumToken validOccasions "CASUAL".data text

def suggestSeason (r : AIOut) : JStr :=
  match r with
  | .error _ => "ALL_SEASON".data
  | .ok text => parseEnumToken validSeasons "ALL_SEASON".data text

def generateItemName (r : AIOut) : JStr :=
  match r with
  | .error _ => "Clothing Item".data
  | .ok text =>
    let name := nameCoreBE text
    if !name.isEmpty then name else "Clothing Item".data

end OpenAIBE

/-! ### Second Gemini adapter (`src/unnamed/part_016`) -/

namespace GeminiBE

def extractColorsFromImage (r : AIOut) : List JStr :=
  match r with
  | .error _ => ["Unknown".data]
  | .ok text => parseColorsG16 text

def identifyClothingType (r : AIOut) : JStr :=
  match r with
  | .error _ => "TOP".data
  | .ok text => parseTypeMap typeMapG16 text

def suggestOccasion (r : AIOut) : JStr :=
  match r with
  | .error _ => "CASUAL".data
  | .ok text => parseEnumToken validOccasions "CASUAL".data text

def suggestSeason (r : AIOut) : JStr :=
  match r with
  | .error _ => "ALL_SEASON".data
  | .ok text => parseEnumToken validSeasons "ALL_SEASON".data text

def generateItemName (r : AIOut) : JStr :=
  match r with
  | .error _ => "Clothing Item".data
  | .ok text =>
    let name := nameCoreG16 text
    if !name.isEmpty then name else "Clothing Item".data

end GeminiBE

/-! ### HuggingFace adapter (`src/unnamed/part_017`)

`analyzeImageWithPrompt` never throws: it catches every failure of the
two-stage pipeline (image captioning, then text-model extraction) and falls
back to `simpleTextExtraction`, which guesses a category from keywords of the
*prompt*.  The classification helpers therefore receive a plain string even
when the underlying model calls raise.  Inputs: the outcomes of the first and
the retried `analyzeImage` call, and the (network-dependent)
`extractStructuredInfo` post-processing as a function of the caption. -/

namespace HF

def simpleTextExtraction (prompt : JStr) : JStr :=
  let lp := jsLower prompt
  if jsIncludes lp "accessory".data || jsIncludes lp "jewelry".data ||
      jsIncludes lp "necklace".data || jsIncludes lp "ring".data then "ACCESSORY".data
  else if jsIncludes lp "top".data || jsIncludes lp "shirt".data ||
      jsIncludes lp "blouse".data then "TOP".data
  else if jsIncludes lp "bottom".data || jsIncludes lp "pant".data ||
      jsIncludes lp "jean".data then "BOTTOM".data
  else if jsIncludes lp "dress".data then "DRESS".data
  else if jsIncludes lp "shoe".data || jsIncludes lp "boot".data then "SHOES".data
  else "TOP".data

def analyzeImageWithPrompt (img1 img2 : AIOut) (structured : JStr → JStr) (prompt : JStr) : JStr :=
  match img1 with
  | .ok d =>
    if d = "A clothing item".data then simpleTextExtraction prompt else structured d
  | .error _ =>
    match img2 with
    | .ok d => d
    | .error _ => simpleTextExtraction prompt

def colorsPrompt : JStr :=
  ("Based on this image description, identify the main colors present in the clothing item. \nReturn ONLY a JSON array of color names. Use simple color names like: Red, Blue, Green, Yellow, Black, White, Gray, Brown, Pink, Purple, Orange, Navy, Beige.\nExample: [\"Blue\", \"White\"]\nReturn ONLY the JSON array, no other text.").data

def typePrompt : JStr :=
  ("Based on this image description, classify the clothing item into ONE category.\n\nVALID CATEGORIES: TOP, BOTTOM, DRESS, OUTERWEAR, SHOES, ACCESSORY, UNDERWEAR, SWIMWEAR, SPORTSWEAR\n\nCLASSIFICATION RULES:\n- TOP = Upper body garments (shirts, t-shirts, blouses, sweaters, hoodies)\n- BOTTOM = Lower body garments (pants, jeans, shorts, skirts)\n- DRESS = One-piece garments (dresses, jumpsuits)\n- OUTERWEAR = Outer layers (jackets, coats, blazers)\n- SHOES = Footwear (all types of shoes, boots, sandals)\n- ACCESSORY = Non-garment items including ALL jewelry (necklaces, earrings, bracelets, rings, bags, hats, belts)\n- UNDERWEAR = Under garments\n- SWIMWEAR = Swimming attire\n- SPORTSWEAR = Athletic clothing\n\nCRITICAL: If it\x27s jewelry (necklace, earring, bracelet, ring), return ACCESSORY.\nReturn ONLY the exact word from the list above. No explanations.").data

def occasionPrompt : JStr :=
  ("Based on this image description, suggest the most appropriate occasion.\nReturn ONLY one of these exact values: CASUAL, WORK, FORMAL, PARTY, SPORTS, BEACH, DATE_NIGHT, TRAVEL.\nYour response must be only the single word, with no other text.").data

def seasonPrompt : JStr :=
  ("Based on this image description, suggest the most appropriate season.\nReturn ONLY one of these exact values: SPRING, SUMMER, FALL, WINTER, ALL_SEASON.\nYour response must be only the single word, with no other text.").data

def namePrompt : JStr :=
  ("Based on this image description, create a descriptive name for the clothing item.\n\nFormat: [Color] [Material/Style] [Item Type]\nExamples: \"Blue Denim Jeans\", \"White Cotton T-Shirt\", \"Black Leather Jacket\", \"Silver Chain Necklace\"\n\nReturn ONLY the name. No quotes, no explanations. Just the descriptive name.").data

/-- The `catch` branches of the five helpers are unreachable because
`analyzeImageWithPrompt` is total, so each helper is its parse pipeline
applied to the `analyzeImageWithPrompt` result. -/
def extractColorsFromImage (img1 img2 : AIOut) (structured : JStr → JStr) : List JStr :=
  parseColorsBE (analyzeImageWithPrompt img1 img2 structured colorsPrompt)

def identifyClothingType (img1 img2 : AIOut) (structured : JStr → JStr) : JStr :=
  parseTypeMap typeMapJewel (analyzeImageWithPrompt img1 img2 structured typePrompt)

def suggestOccasion (img1 img2 : AIOut) (structured : JStr → JStr) : JStr :=
  parseEnumToken validOccasions "CASUAL".data (analyzeImageWithPrompt img1 img2 structured occasionPrompt)

def suggestSeason (img1 img2 : AIOut) (structured : JStr → JStr) : JStr :=
  parseEnumToken validSeasons "ALL_SEASON".data (analyzeImageWithPrompt img1 img2 structured seasonPrompt)

def generateItemName (img1 img2 : AIOut) (structured : JStr → JStr) : JStr :=
  let name := nameCoreBE (analyzeImageWithPrompt img1 img2 structured namePrompt)
  if !name.isEmpty then name else "Clothing Item".data

end HF

/-! ## Item data model and route handlers

`Item` models the mongoose `Item` schema (`src/unnamed/part_006`); the unused
moderation fields are omitted.  The database is a list of items; `findById`
finds the first item with the given id and `updateById` rewrites it in place.
Each handler takes the authenticated caller (`x-user-id` header, `none` when
absent) and returns a response together with the new database state and the
`ItemHistory` / `AuditLog` rows appended by the request. -/

structure Item where
  id : String
  userId : String
  name : String
  filename : String
  objectUrl : String
  thumbnailUrl : String
  processedUrl : String
  colors : List String
  type : String
  occasion : String
  season : String
  laundryStatus : String
  usageCount : Nat
  isFavorite : Bool
deriving DecidableEq

structure HistoryEntry where
  itemId : String
  action : String
  notes : String
deriving DecidableEq

inductive Resp where
  | unauthorized
  | notFound
  | forbidden
  | badRequest
  | serverError
  | okItem (it : Item)
  | okDeleted
deriving DecidableEq

def findById (db : List Item) (id : String) : Option Item :=
  db.find? (fun it => it.id == id)

def updateById (db : List Item) (id : String) (f : Item → Item) : List Item :=
  match db with
  | [] => []
  | it :: rest => if it.id == id then f it :: rest else it :: updateById rest id f

def removeById (db : List Item) (id : String) : List Item :=
  match db with
  | [] => []
  | it :: rest => if it.id == id then rest else it :: removeById rest id

structure HandlerResult where
  resp : Resp
  db : List Item
  history : List HistoryEntry
  audit : List String
deriving DecidableEq

/-- The `switch (action)` table shared by both laundry handlers: target
`laundryStatus` and `ItemHistory` action, or `none` for the 400 default
branch. -/
def targetOfAction (action : String) : Option (String × String) :=
  match action with
  | "mark_laundry" => some ("IN_LAUNDRY", "MARKED_LAUNDRY")
  | "mark_clean" => some ("CLEAN", "RETURNED")
  | "mark_worn" => some ("IN_WARDROBE", "WORN")
  | "mark_away" => some ("AWAY", "EDITED")
  | _ => none

/-- The laundry-action `POST` handler of `src/unnamed/part_015`: a single
`findByIdAndUpdate` that sets the status and — for `mark_worn` *and*
`mark_laundry` — atomically increments `usageCount`. -/
def laundryActionA (authUser : Option String) (db : List Item) (id action : String) :
    HandlerResult :=
  match authUser with
  | none => ⟨.unauthorized, db, [], []⟩
  | some uid =>
    match findById db id with
    | none => ⟨.notFound, db, [], []⟩
    | some existing =>
      if existing.userId ≠ uid then ⟨.forbidden, db, [], []⟩
      else
        match targetOfAction action with
        | none => ⟨.badRequest, db, [], []⟩
        | some (newStatus, historyAction) =>
          let f := fun it : Item =>
            { it with
              laundryStatus := newStatus
              usageCount := it.usageCount +
                (if action = "mark_worn" ∨ action = "mark_laundry" then 1 else 0) }
          let item := f existing
          let note :=
            if action = "mark_worn" ∨ action = "mark_laundry" then
              "Item marked as worn / moved to laundry. Usage count: " ++ toString item.usageCount
            else
              "Status changed to " ++ newStatus
          ⟨.okItem item, updateById db id f, [⟨id, historyAction, note⟩],
            ["LAUNDRY_" ++ action.toUpper]⟩

/-- The laundry-action `POST` handler of `src/unnamed/part_003`: `mark_worn`
first issues a separate `$inc` update, then a second update sets the status;
`mark_laundry` does *not* increment `usageCount` here. -/
def laundryActionB (authUser : Option String) (db : List Item) (id action : String) :
    HandlerResult :=
  match authUser with
  | none => ⟨.unauthorized, db, [], []⟩
  | some uid =>
    match findById db id with
    | none => ⟨.notFound, db, [], []⟩
    | some existing =>
      if existing.userId ≠ uid then ⟨.forbidden, db, [], []⟩
      else
        match targetOfAction action with
        | none => ⟨.badRequest, db, [], []⟩
        | some (newStatus, historyAction) =>
          let db1 :=
            if action = "mark_worn" then
              updateById db id (fun it => { it with usageCount := it.usageCount + 1 })
            else db
          let db2 := updateById db1 id (fun it => { it with laundryStatus := newStatus })
          let item :=
            { existing with
              laundryStatus := newStatus
              usageCount := existing.usageCount + (if action = "mark_worn" then 1 else 0) }
          ⟨.okItem item, db2, [⟨id, historyAction, "Status changed to " ++ newStatus⟩],
            ["LAUNDRY_" ++ action.toUpper]⟩

/-- The `PUT` body of the item-update handlers: only these six fields are
destructured from the request; anything else in the payload — in particular a
`usageCount` — is never read. -/
structure UpdateBody where
  name : Option String
  colors : Option (List String)
  type : Option String
  occasion : Option String
  season : Option String
  isFavorite : Option Bool
deriving DecidableEq

/-- The `updateData` object: each field is written only when present in the
body (`!== undefined`). -/
def applyUpdate (b : UpdateBody) (it : Item) : Item :=
  { it with
    name := b.name.getD it.name
    colors := b.colors.getD it.colors
    type := b.type.getD it.type
    occasion := b.occasion.getD it.occasion
    season := b.season.getD it.season
    isFavorite := b.isFavorite.getD it.isFavorite }

/-- `PUT` of `src/frontend/src/app/api/items/[id]/route.ts`. -/
def putItem (authUser : Option String) (db : List Item) (id : String) (b : UpdateBody) :
    HandlerResult :=
  match authUser with
  | none => ⟨.unauthorized, db, [], []⟩
  | some uid =>
    match findById db id with
    | none => ⟨.notFound, db, [], []⟩
    | some existing =>
      if existing.userId ≠ uid then ⟨.forbidden, db, [], []⟩
      else
        ⟨.okItem (applyUpdate b existing), updateById db id (applyUpdate b),
          [⟨id, "EDITED", "Item updated"⟩], ["UPDATE_ITEM"]⟩

/-- `DELETE` of `src/frontend/src/app/api/items/[id]/route.ts`. -/
def deleteItem (authUser : Option String) (db : List Item) (id : String) : HandlerResult :=
  match authUser with
  | none => ⟨.unauthorized, db, [], []⟩
  | some uid =>
    match findById db id with
    | none => ⟨.notFound, db, [], []⟩
    | some existing =>
      if existing.userId ≠ uid then ⟨.forbidden, db, [], []⟩
      else
        ⟨.okDeleted, removeById db id, [⟨id, "DELETED", "Item deleted"⟩], ["DELETE_ITEM"]⟩

/-- `GET` by id of `src/frontend/src/app/api/items/[id]/route.ts`: the stored
item is returned unmasked (the name is not blanked on this read path). -/
def getItemById (authUser : Option String) (db : List Item) (id : String) : Resp :=
  match authUser with
  | none => .unauthorized
  | some uid =>
    match findById db id with
    | none => .notFound
    | some it => if it.userId ≠ uid then .forbidden else .okItem it

/-! ### Item creation (`src/unnamed/part_014` `POST` and the backend upload
handler `src/backend/src/app/api/upload/route.ts`) -/

/-- JavaScript truthiness of an optional string (`null`/`undefined` and the
empty string are falsy). -/
def strTruthy (o : Option String) : Bool :=
  match o with
  | some s => !(s == "")
  | none => false

/-- JavaScript `x || d` for an optional string `x`. -/
def orIfEmpty (o : Option String) (d : String) : String :=
  match o with
  | some s => if s == "" then d else s
  | none => d

structure CreateBody where
  userId : Option String
  name : Option String
  filename : Option String
  objectUrl : Option String
  thumbnailUrl : Option String
  processedUrl : Option String
  colors : Option (List String)
  type : Option String
  occasion : Option String
  season : Option String
  /-- present in a client payload but never destructured by the handler -/
  usageCount : Option Nat
  /-- present in a client payload but never destructured by the handler -/
  isFavorite : Option Bool
deriving DecidableEq

/-- `POST` of `src/unnamed/part_014`: direct item creation.  `newId` stands
for the database-assigned `_id` of the inserted document. -/
def createItemPOST (authUser : Option String) (body : CreateBody) (newId : String)
    (db : List Item) : Except Resp (Item × List Item × List HistoryEntry × List String) :=
  match authUser with
  | none => .error .unauthorized
  | some uid =>
    if strTruthy body.userId && !(body.userId == some uid) then .error .forbidden
    else if !(strTruthy body.userId) || !(strTruthy body.filename) ||
        !(strTruthy body.objectUrl) || !(strTruthy body.type) then .error .badRequest
    else
      let item : Item :=
        { id := newId
          userId := uid
          name := orIfEmpty body.name (body.filename.getD "")
          filename := body.filename.getD ""
          objectUrl := body.objectUrl.getD ""
          thumbnailUrl := body.thumbnailUrl.getD ""
          processedUrl := body.processedUrl.getD ""
          colors := body.colors.getD []
          type := body.type.getD ""
          occasion := orIfEmpty body.occasion "CASUAL"
          season := orIfEmpty body.season "ALL_SEASON"
          laundryStatus := "IN_WARDROBE"
          usageCount := 0
          isFavorite := false }
      .ok (item, db ++ [item], [⟨newId, "CREATED", "Item created"⟩], ["CREATE_ITEM"])

structure UploadBody where
  hasFile : Bool
  userId : Option String
  name : Option String
  type : Option String
  occasion : Option String
  season : Option String
  /-- present in a client payload but never read by the handler -/
  usageCount : Option Nat
  /-- present in a client payload but never read by the handler -/
  isFavorite : Option Bool
deriving DecidableEq

/-- The public response assembled by the backend upload handler: the stored
item is spread into `publicItem` but its `name` is overwritten with `''`, and
`aiAnalysis.name` is likewise `''`. -/
structure UploadResponse where
  success : Bool
  itemName : String
  aiName : String
  aiType : String
  aiOccasion : String
  aiSeason : String
  aiColors : List String
deriving DecidableEq

/-- The handler's initial `detectedName`:
`name && name.trim().length > 0 ? name : 'Untitled Item'`. -/
def detectedNameOf (name? : Option String) : String :=
  match name? with
  | some n => if (jsTrim n.data).isEmpty then "Untitled Item" else n
  | none => "Untitled Item"

/-- `POST` of `src/backend/src/app/api/upload/route.ts`.  `analysisResult` is
the value produced by `analyzeImageWithOpenAI`: either `null` or the raw
completion *string* returned by `OpenAIClient.analyzeImage`, so the property
accesses `analysisResult.name` / `.type` / … are always `undefined` and never
override the detected values.  `fname` stands for the timestamped file name,
`newId` for the database-assigned `_id`.  A missing `type` fails the mongoose
required-field validation at `item.save()`, modelled as a server error. -/
def uploadPOST (body : UploadBody) (analysisResult : Option String) (fname newId : String)
    (db : List Item) : Except Resp (Item × UploadResponse × List Item) :=
  match body.userId with
  | none => .error .badRequest
  | some uid =>
    if !body.hasFile || uid == "" then .error .badRequest
    else
      let occasionVal := orIfEmpty body.occasion "CASUAL"
      let seasonVal := orIfEmpty body.season "ALL_SEASON"
      let detectedName := detectedNameOf body.name
      let _ := analysisResult
      match body.type with
      | none => .error .serverError
      | some ty =>
        let item : Item :=
          { id := newId
            userId := uid
            name := detectedName
            filename := fname
            objectUrl := "/uploads/" ++ fname
            thumbnailUrl := "/uploads/thumb-" ++ fname
            processedUrl := "/uploads/" ++ fname
            colors := ["Unknown"]
            type := ty
            occasion := occasionVal
            season := seasonVal
            laundryStatus := "IN_WARDROBE"
            usageCount := 0
            isFavorite := false }
        let resp : UploadResponse :=
          { success := true
            itemName := ""
            aiName := ""
            aiType := ty
            aiOccasion := occasionVal
            aiSeason := seasonVal
            aiColors := ["Unknown"] }
        .ok (item, resp, db ++ [item])

/-! ## Outfit suggestion engine (`src/backend/src/app/api/outfits/suggest/route.ts`) -/

structure Proposal where
  name : String
  description : String
  itemIds : List String
  reasoning : String
deriving DecidableEq

/-- `generateFallbackOutfits`: deterministic rule-based pairing.  First outfit
pairs the first TOP with the first BOTTOM (plus the first OUTERWEAR when
available), the second is the first DRESS alone, the third mixes the second
TOP/BOTTOM when both lists have at least two entries; at most 3 returned. -/
def idOrElse (o : Option Item) (fallbackId : String) : String :=
  match o with
  | some t => if t.id == "" then fallbackId else t.id
  | none => fallbackId

def generateFallbackOutfits (items : List Item) : List Proposal :=
  let tops := items.filter (fun it => it.type == "TOP")
  let bottoms := items.filter (fun it => it.type == "BOTTOM")
  let dresses := items.filter (fun it => it.type == "DRESS")
  let outerwear := items.filter (fun it => it.type == "OUTERWEAR")
  let first : List Proposal :=
    match tops, bottoms with
    | t :: _, b :: _ =>
      let ids := [t.id, b.id] ++ (match outerwear with | o :: _ => [o.id] | [] => [])
      [⟨"", "A comfortable and versatile everyday outfit", ids,
        "Simple combination that works for most casual occasions"⟩]
    | _, _ => []
  let second : List Proposal :=
    match dresses with
    | d :: _ =>
      [⟨"", "A simple one-piece outfit", [d.id],
        "Effortless style with minimal coordination needed"⟩]
    | [] => []
  let third : List Proposal :=
    if 1 < tops.length ∧ 1 < bottoms.length then
      [⟨"", "A different combination from your wardrobe",
        [idOrElse (tops.get? 1) (idOrElse tops.head? ""),
         idOrElse (bottoms.get? 1) (idOrElse bottoms.head? "")],
        "Mixing different pieces for variety"⟩]
    else []
  (first ++ second ++ third).take 3

/-- Validation of the parsed AI proposals: item ids outside the user's
eligible wardrobe are filtered out of every proposal, and proposals left
without any valid item are dropped. -/
def validateSuggestions (suggestions : List Proposal) (validIds : List String) : List Proposal :=
  (suggestions.map fun o => { o with itemIds := o.itemIds.filter (fun i => validIds.contains i) }).filter
    (fun o => 0 < o.itemIds.length)

/-- The backfill loop: each fallback outfit is appended unless a suggestion
with the *same ordered id list* already exists (`sIds.length === fIds.length
&& sIds.every((v, i) => v === fIds[i])`), and the loop breaks once 3
suggestions are reached. -/
def supplementLoop : List Proposal → List Proposal → List Proposal
  | acc, [] => acc
  | acc, f :: fs =>
    let acc' := if acc.any (fun s => s.itemIds == f.itemIds) then acc else acc ++ [f]
    if 3 ≤ acc'.length then acc' else supplementLoop acc' fs

/-- The validated-response assembly of the suggest `POST` handler (lines
199–224): validate, backfill when fewer than 3 remain, and slice to at most
3. -/
def suggestPipeline (aiSuggestions : List Proposal) (validIds : List String)
    (fallback : List Proposal) : List Proposal :=
  let validated := validateSuggestions aiSuggestions validIds
  let filled := if validated.length < 3 then supplementLoop validated fallback else validated
  filled.take 3

/-! ## Operation sequences over one database (for the usage-count invariant)

The API operations that can touch an existing item's stored fields: the two
laundry-action handlers and the general item update (which is also how a
favorite is toggled — `isFavorite` travels in the `PUT` body). -/

inductive ApiOp where
  | laundryA (user : Option String) (id action : String)
  | laundryB (user : Option String) (id action : String)
  | update (user : Option String) (id : String) (b : UpdateBody)

def applyOp (db : List Item) : ApiOp → List Item
  | .laundryA u id a => (laundryActionA u db id a).db
  | .laundryB u id a => (laundryActionB u db id a).db
  | .update u id b => (putItem u db id b).db

def applyOps (db : List Item) (ops : List ApiOp) : List Item :=
  ops.foldl applyOp db

/-- Positional usage-count monotonicity between two database states: same
length, and at every position the id is preserved while `usageCount` has not
decreased. -/
def UsageMono (db db' : List Item) : Prop :=
  db'.length = db.length ∧
  ∀ k (h : k < db.length) (h' : k < db'.length),
    (db.get ⟨k, h⟩).usageCount ≤ (db'.get ⟨k, h'⟩).usageCount ∧
    (db'.get ⟨k, h'⟩).id = (db.get ⟨k, h⟩).id

/-! ## Concrete sample data used by the witnesses and counterexamples -/

def sampleItem : Item :=
  { id := "i1", userId := "u1", name := "Blue Tee", filename := "f.jpg",
    objectUrl := "/uploads/f.jpg", thumbnailUrl := "/uploads/thumb-f.jpg",
    processedUrl := "/uploads/f.jpg", colors := ["Blue"], type := "TOP",
    occasion := "CASUAL", season := "ALL_SEASON", laundryStatus := "IN_WARDROBE",
    usageCount := 0, isFavorite := false }

def itemTopA : Item := { sampleItem with id := "a", type := "TOP" }

def itemBottomB : Item := { sampleItem with id := "b", type := "BOTTOM" }

def itemDressC : Item := { sampleItem with id := "c", type := "DRESS" }

def c4Item : Item := { sampleItem with laundryStatus := "IN_LAUNDRY", usageCount := 5 }

def c9Body : CreateBody :=
  { userId := some "u1", name := some "Adversarial", filename := some "f.jpg",
    objectUrl := some "/uploads/f.jpg", thumbnailUrl := none, processedUrl := none,
    colors := none, type := some "TOP", occasion := none, season := none,
    usageCount := some 99, isFavorite := some true }

def c9Item : Item :=
  { id := "n1", userId := "u1", name := "Adversarial", filename := "f.jpg",
    objectUrl := "/uploads/f.jpg", thumbnailUrl := "", processedUrl := "",
    colors := [], type := "TOP", occasion := "CASUAL", season := "ALL_SEASON",
    laundryStatus := "IN_WARDROBE", usageCount := 0, isFavorite := false }

def c10Body : UploadBody :=
  { hasFile := true, userId := some "u1", name := some "Red Hat", type := some "ACCESSORY",
    occasion := none, season := none, usageCount := some 7, isFavorite := some true }

def c10Item : Item :=
  { id := "n2", userId := "u1", name := "Red Hat", filename := "f.jpg",
    objectUrl := "/uploads/f.jpg", thumbnailUrl := "/uploads/thumb-f.jpg",
    processedUrl := "/uploads/f.jpg", colors := ["Unknown"], type := "ACCESSORY",
    occasion := "CASUAL", season := "ALL_SEASON", laundryStatus := "IN_WARDROBE",
    usageCount := 0, isFavorite := false }

def c10Resp : UploadResponse :=
  { success := true, itemName := "", aiName := "", aiType := "ACCESSORY",
    aiOccasion := "CASUAL", aiSeason := "ALL_SEASON", aiColors := ["Unknown"] }

instance exceptDecEq {ε α : Type} [DecidableEq ε] [DecidableEq α] :
    DecidableEq (Except ε α) := fun a b =>
  match a, b with
  | .ok x, .ok y =>
    if h : x = y then isTrue (by rw [h]) else isFalse (fun hc => h (Except.ok.inj hc))
  | .error x, .error y =>
    if h : x = y then isTrue (by rw [h]) else isFalse (fun hc => h (Except.error.inj hc))
  | .ok _, .error _ => isFalse (fun hc => Except.noConfusion hc)
  | .error _, .ok _ => isFalse (fun hc => Except.noConfusion hc)

/-! ## Supporting lemmas -/

theorem updateById_noop (db : List Item) (id : String) (f : Item → Item)
    (h : ∀ it, findById db id = some it → f it = it) : updateById db id f = db := by
  induction db with
  | nil => rfl
  | cons a rest ih =>
    unfold updateById
    by_cases ha : (a.id == id) = true
    · rw [if_pos ha]
      have : findById (a :: rest) id = some a := by
        simp [findById, List.find?_cons_of_pos, ha]
      rw [h a this]
    · rw [if_neg ha]
      have hrest : ∀ it, findById rest id = some it → f it = it := by
        intro it hit
        apply h
        simpa [findById, List.find?_cons_of_neg, ha] using hit
      rw [ih hrest]

theorem updateById_length (db : List Item) (id : String) (f : Item → Item) :
    (updateById db id f).length = db.length := by
  induction db with
  | nil => rfl
  | cons a rest ih =>
    unfold updateById
    by_cases ha : (a.id == id) = true
    · simp [ha]
    · simp [ha, ih]

theorem updateById_get? (db : List Item) (id : String) (f : Item → Item) (k : Nat) :
    (updateById db id f).get? k = db.get? k ∨
    (updateById db id f).get? k = (db.get? k).map f := by
  induction db generalizing k with
  | nil => left; rfl
  | cons a rest ih =>
    unfold updateById
    by_cases ha : (a.id == id) = true
    · rw [if_pos ha]
      match k with
      | 0 => right; rfl
      | k + 1 => left; rfl
    · rw [if_neg ha]
      match k with
      | 0 => left; rfl
      | k + 1 => simpa using ih k

theorem updateById_get (db : List Item) (id : String) (f : Item → Item) (k : Nat)
    (h : k < db.length) (h' : k < (updateById db id f).length) :
    (updateById db id f).get ⟨k, h'⟩ = db.get ⟨k, h⟩ ∨
    (updateById db id f).get ⟨k, h'⟩ = f (db.get ⟨k, h⟩) := by
  have h1 : (updateById db id f).get? k = some ((updateById db id f).get ⟨k, h'⟩) :=
    List.get?_eq_get h'
  have h2 : db.get? k = some (db.get ⟨k, h⟩) := List.get?_eq_get h
  rcases updateById_get? db id f k with heq | heq
  · left
    rw [h1, h2] at heq
    exact Option.some.inj heq
  · right
    rw [h1, h2] at heq
    simpa using heq

theorem usageMono_refl (db : List Item) : UsageMono db db :=
  ⟨rfl, fun _ _ _ => ⟨le_refl _, rfl⟩⟩

theorem usageMono_trans {db1 db2 db3 : List Item} (h12 : UsageMono db1 db2)
    (h23 : UsageMono db2 db3) : UsageMono db1 db3 := by
  obtain ⟨hl12, hp12⟩ := h12
  obtain ⟨hl23, hp23⟩ := h23
  refine ⟨hl23.trans hl12, fun k h h' => ?_⟩
  have h2 : k < db2.length := by omega
  obtain ⟨ha, hb⟩ := hp12 k h h2
  obtain ⟨hc, hd⟩ := hp23 k h2 h'
  exact ⟨ha.trans hc, hd.trans hb⟩

theorem usageMono_updateById (db : List Item) (id : String) (f : Item → Item)
    (hf : ∀ x, x.usageCount ≤ (f x).usageCount ∧ (f x).id = x.id) :
    UsageMono db (updateById db id f) := by
  refine ⟨updateById_length db id f, fun k h h' => ?_⟩
  rcases updateById_get db id f k h h' with heq | heq
  · rw [heq]
    exact ⟨le_refl _, rfl⟩
  · rw [heq]
    exact ⟨(hf _).1, (hf _).2⟩

theorem usageMono_applyOp (db : List Item) (op : ApiOp) : UsageMono db (applyOp db op) := by
  cases op with
  | laundryA u id a =>
    show UsageMono db (laundryActionA u db id a).db
    cases u with
    | none => exact usageMono_refl db
    | some uid =>
      rcases hfind : findById db id with _ | it
      · simp only [laundryActionA, hfind]
        exact usageMono_refl db
      · by_cases hown : it.userId ≠ uid
        · simp only [laundryActionA, hfind, if_pos hown]
          exact usageMono_refl db
        · rcases htgt : targetOfAction a with _ | ⟨ns, ha⟩
          · simp only [laundryActionA, hfind, if_neg hown, htgt]
            exact usageMono_refl db
          · simp only [laundryActionA, hfind, if_neg hown, htgt]
            apply usageMono_updateById
            intro x
            constructor
            · simp
            · rfl
  | laundryB u id a =>
    show UsageMono db (laundryActionB u db id a).db
    cases u with
    | none => exact usageMono_refl db
    | some uid =>
      rcases hfind : findById db id with _ | it
      · simp only [laundryActionB, hfind]
        exact usageMono_refl db
      · by_cases hown : it.userId ≠ uid
        · simp only [laundryActionB, hfind, if_pos hown]
          exact usageMono_refl db
        · rcases htgt : targetOfAction a with _ | ⟨ns, ha⟩
          · simp only [laundryActionB, hfind, if_neg hown, htgt]
            exact usageMono_refl db
          · simp only [laundryActionB, hfind, if_neg hown, htgt]
            have h1 : UsageMono db
                (if a = "mark_worn" then
                  updateById db id (fun it => { it with usageCount := it.usageCount + 1 })
                else db) := by
              by_cases hw : a = "mark_worn"
              · rw [if_pos hw]
                apply usageMono_updateById
                intro x
                exact ⟨by simp, rfl⟩
              · rw [if_neg hw]
                exact usageMono_refl db
            have h2 : ∀ dbx, UsageMono dbx
                (updateById dbx id (fun it => { it with laundryStatus := ns })) :=
              fun dbx => usageMono_updateById dbx id _ (fun x => ⟨le_refl _, rfl⟩)
            exact usageMono_trans h1 (h2 _)
  | update u id b =>
    show UsageMono db (putItem u db id b).db
    cases u with
    | none => exact usageMono_refl db
    | some uid =>
      rcases hfind : findById db id with _ | it
      · simp only [putItem, hfind]
        exact usageMono_refl db
      · by_cases hown : it.userId ≠ uid
        · simp only [putItem, hfind, if_pos hown]
          exact usageMono_refl db
        · simp only [putItem, hfind, if_neg hown]
          apply usageMono_updateById
          intro x
          exact ⟨le_refl _, rfl⟩

theorem parseEnumToken_default (valid : List JStr) (deflt text : JStr)
    (h1 : cleanedEnum text ∉ valid)
    (h2 : ∀ t ∈ valid, jsIncludes (jsUpper text) t = false) :
    parseEnumToken valid deflt text = deflt := by
  have hf : valid.find? (fun t => jsIncludes (jsUpper text) t) = none := by
    rw [List.find?_eq_none]
    intro t ht
    simp [h2 t ht]
  simp only [parseEnumToken, if_neg h1, hf]

theorem parseTypeMap_default (tm : List (JStr × JStr)) (text : JStr)
    (h : unparsedType tm text) :
    parseTypeMap tm text = "TOP".data := by
  obtain ⟨h1, h2, h3⟩ := h
  have hf : validTypes.find? (fun t => jsIncludes (cleanedType text) t) = none := by
    rw [List.find?_eq_none]
    intro t ht
    simp [h2 t ht]
  have hg : tm.find? (fun kv => jsIncludes (cleanedType text) kv.1) = none := by
    rw [List.find?_eq_none]
    intro kv hkv
    simp [h3 kv hkv]
  simp only [parseTypeMap, if_neg h1, hf, hg]

theorem parseColorsFE_default (text : JStr) (h : unparsedColorsFE text) :
    parseColorsFE text = ["Unknown".data] := by
  obtain ⟨h1, h2⟩ := h
  simp only [parseColorsFE, h1, h2]
  rfl

theorem parseColorsBE_default (text : JStr) (h : unparsedColorsBE text) :
    parseColorsBE text = ["Unknown".data] := by
  obtain ⟨h0, h1, h2⟩ := h
  simp only [parseColorsBE, parseColorsWholeBE, colorsCatchBE, h0, h1, h2]
  rfl

theorem parseColorsG16_default (text : JStr) (h : unparsedColorsBE text) :
    parseColorsG16 text = ["Unknown".data] := by
  obtain ⟨h0, h1, h2⟩ := h
  simp only [parseColorsG16, parseColorsWholeG16, colorsCatchG16, h0, h1, h2]
  rfl

theorem hf_fail_colors (st : JStr → JStr) :
    HF.extractColorsFromImage (Except.error ()) (Except.error ()) st = ["TOP".data] := by
  have h : HF.extractColorsFromImage (Except.error ()) (Except.error ()) st =
      parseColorsBE (HF.simpleTextExtraction HF.colorsPrompt) := rfl
  rw [h]
  decide

theorem hf_fail_type (st : JStr → JStr) :
    HF.identifyClothingType (Except.error ()) (Except.error ()) st = "ACCESSORY".data := by
  have h : HF.identifyClothingType (Except.error ()) (Except.error ()) st =
      parseTypeMap typeMapJewel (HF.simpleTextExtraction HF.typePrompt) := rfl
  rw [h]
  decide

theorem hf_fail_occasion (st : JStr → JStr) :
    HF.suggestOccasion (Except.error ()) (Except.error ()) st = "CASUAL".data := by
  have h : HF.suggestOccasion (Except.error ()) (Except.error ()) st =
      parseEnumToken validOccasions "CASUAL".data (HF.simpleTextExtraction HF.occasionPrompt) := rfl
  rw [h]
  decide

theorem hf_fail_season (st : JStr → JStr) :
    HF.suggestSeason (Except.error ()) (Except.error ()) st = "ALL_SEASON".data := by
  have h : HF.suggestSeason (Except.error ()) (Except.error ()) st =
      parseEnumToken validSeasons "ALL_SEASON".data (HF.simpleTextExtraction HF.seasonPrompt) := rfl
  rw [h]
  decide

theorem hf_fail_name (st : JStr → JStr) :
    HF.generateItemName (Except.error ()) (Except.error ()) st = "ACCESSORY".data := by
  have h : HF.generateItemName (Except.error ()) (Except.error ()) st =
      (let name := nameCoreBE (HF.simpleTextExtraction HF.namePrompt)
       if !name.isEmpty then name else "Clothing Item".data) := rfl
  rw [h]
  decide

/-! ## Claim C1 -/

/-- Claim C1 counterexample: the claimed uniform safe defaults do not hold for
every provider adapter.  On a failed model call the frontend Gemini adapter's
`generateItemName` returns `Unknown Item` (not the documented
`Clothing Item`), and the HuggingFace adapter — whose
`analyzeImageWithPrompt` swallows the failure and substitutes a keyword guess
derived from the prompt — returns type `ACCESSORY` (not `TOP`), colors
`['TOP']` (not `['Unknown']`) and name `ACCESSORY` (not `Clothing Item`). -/
theorem C1_counterexample :
    GeminiFE.generateItemName (Except.error ()) = "Unknown Item".data ∧
    "Unknown Item".data ≠ "Clothing Item".data ∧
    HF.identifyClothingType (Except.error ()) (Except.error ()) (fun d => d) = "ACCESSORY".data ∧
    "ACCESSORY".data ≠ "TOP".data ∧
    HF.extractColorsFromImage (Except.error ()) (Except.error ()) (fun d => d) = ["TOP".data] ∧
    (["TOP".data] : List JStr) ≠ ["Unknown".data] ∧
    HF.generateItemName (Except.error ()) (Except.error ()) (fun d => d) = "ACCESSORY".data := by
  exact ⟨by decide, by decide, hf_fail_type _, by decide, hf_fail_colors _, by decide,
    hf_fail_name _⟩

/-- Claim C1 (amended): no classification operation of any adapter throws, and
on a failed model call (transport error, non-2xx response, or empty output,
all of which surface as a thrown `analyzeImage`) or on unparseable successful
output the operations return fixed fallbacks; the documented defaults
(`TOP` / `CASUAL` / `ALL_SEASON` / `['Unknown']` / `Clothing Item`) hold for
the backend OpenAI and Gemini adapters and — except for `generateItemName`,
which returns `Unknown Item` — for the frontend Gemini adapter, while the
HuggingFace adapter converts a failed model call into a prompt-keyword guess
yielding colors `['TOP']`, type `ACCESSORY`, occasion `CASUAL`, season
`ALL_SEASON` and name `ACCESSORY`; on unparseable successful output all four
adapters (HuggingFace included) return the documented defaults, with
`Unknown Item` as the frontend name default. -/
theorem C1_amended :
    (GeminiFE.extractColorsFromImage (Except.error ()) = ["Unknown".data] ∧
     GeminiFE.identifyClothingType (Except.error ()) = "TOP".data ∧
     GeminiFE.suggestOccasion (Except.error ()) = "CASUAL".data ∧
     GeminiFE.suggestSeason (Except.error ()) = "ALL_SEASON".data ∧
     GeminiFE.generateItemName (Except.error ()) = "Unknown Item".data) ∧
    (OpenAIBE.extractColorsFromImage (Except.error ()) = ["Unknown".data] ∧
     OpenAIBE.identifyClothingType (Except.error ()) = "TOP".data ∧
     OpenAIBE.suggestOccasion (Except.error ()) = "CASUAL".data ∧
     OpenAIBE.suggestSeason (Except.error ()) = "ALL_SEASON".data ∧
     OpenAIBE.generateItemName (Except.error ()) = "Clothing Item".data) ∧
    (GeminiBE.extractColorsFromImage (Except.error ()) = ["Unknown".data] ∧
     GeminiBE.identifyClothingType (Except.error ()) = "TOP".data ∧
     GeminiBE.suggestOccasion (Except.error ()) = "CASUAL".data ∧
     GeminiBE.suggestSeason (Except.error ()) = "ALL_SEASON".data ∧
     GeminiBE.generateItemName (Except.error ()) = "Clothing Item".data) ∧
    (∀ st : JStr → JStr,
      HF.extractColorsFromImage (Except.error ()) (Except.error ()) st = ["TOP".data] ∧
      HF.identifyClothingType (Except.error ()) (Except.error ()) st = "ACCESSORY".data ∧
      HF.suggestOccasion (Except.error ()) (Except.error ()) st = "CASUAL".data ∧
      HF.suggestSeason (Except.error ()) (Except.error ()) st = "ALL_SEASON".data ∧
      HF.generateItemName (Except.error ()) (Except.error ()) st = "ACCESSORY".data) ∧
    (∀ text, unparsedColorsFE text →
      GeminiFE.extractColorsFromImage (Except.ok text) = ["Unknown".data]) ∧
    (∀ text, unparsedEnum validTypes text →
      GeminiFE.identifyClothingType (Except.ok text) = "TOP".data) ∧
    (∀ text, unparsedEnum validOccasions text →
      GeminiFE.suggestOccasion (Except.ok text) = "CASUAL".data) ∧
    (∀ text, unparsedEnum validSeasons text →
      GeminiFE.suggestSeason (Except.ok text) = "ALL_SEASON".data) ∧
    (∀ text, nameCoreFE text = [] →
      GeminiFE.generateItemName (Except.ok text) = "Unknown Item".data) ∧
    (∀ text, unparsedColorsBE text →
      OpenAIBE.extractColorsFromImage (Except.ok text) = ["Unknown".data]) ∧
    (∀ text, unparsedType typeMapJewel text →
      OpenAIBE.identifyClothingType (Except.ok text) = "TOP".data) ∧
    (∀ text, unparsedEnum validOccasions text →
      OpenAIBE.suggestOccasion (Except.ok text) = "CASUAL".data) ∧
    (∀ text, unparsedEnum validSeasons text →
      OpenAIBE.suggestSeason (Except.ok text) = "ALL_SEASON".data) ∧
    (∀ text, nameCoreBE text = [] →
      OpenAIBE.generateItemName (Except.ok text) = "Clothing Item".data) ∧
    (∀ text, unparsedColorsBE text →
      GeminiBE.extractColorsFromImage (Except.ok text) = ["Unknown".data]) ∧
    (∀ text, unparsedType typeMapG16 text →
      GeminiBE.identifyClothingType (Except.ok text) = "TOP".data) ∧
    (∀ text, unparsedEnum validOccasions text →
      GeminiBE.suggestOccasion (Except.ok text) = "CASUAL".data) ∧
    (∀ text, unparsedEnum validSeasons text →
      GeminiBE.suggestSeason (Except.ok text) = "ALL_SEASON".data) ∧
    (∀ text, nameCoreG16 text = [] →
      GeminiBE.generateItemName (Except.ok text) = "Clothing Item".data) ∧
    (∀ i1 i2 st, unparsedColorsBE (HF.analyzeImageWithPrompt i1 i2 st HF.colorsPrompt) →
      HF.extractColorsFromImage i1 i2 st = ["Unknown".data]) ∧
    (∀ i1 i2 st, unparsedType typeMapJewel (HF.analyzeImageWithPrompt i1 i2 st HF.typePrompt) →
      HF.identifyClothingType i1 i2 st = "TOP".data) ∧
    (∀ i1 i2 st, unparsedEnum validOccasions (HF.analyzeImageWithPrompt i1 i2 st HF.occasionPrompt) →
      HF.suggestOccasion i1 i2 st = "CASUAL".data) ∧
    (∀ i1 i2 st, unparsedEnum validSeasons (HF.analyzeImageWithPrompt i1 i2 st HF.seasonPrompt) →
      HF.suggestSeason i1 i2 st = "ALL_SEASON".data) ∧
    (∀ i1 i2 st, nameCoreBE (HF.analyzeImageWithPrompt i1 i2 st HF.namePrompt) = [] →
      HF.generateItemName i1 i2 st = "Clothing Item".data) := by
  refine ⟨⟨by decide, by decide, by decide, by decide, by decide⟩,
    ⟨by decide, by decide, by decide, by decide, by decide⟩,
    ⟨by decide, by decide, by decide, by decide, by decide⟩,
    fun st => ⟨hf_fail_colors st, hf_fail_type st, hf_fail_occasion st, hf_fail_season st,
      hf_fail_name st⟩,
    ?_, ?_, ?_, ?_, ?_, ?_, ?_, ?_, ?_, ?_, ?_, ?_, ?_, ?_, ?_, ?_, ?_, ?_, ?_, ?_⟩
  · exact fun text h => parseColorsFE_default text h
  · exact fun text h => parseEnumToken_default _ _ text h.1 h.2
  · exact fun text h => parseEnumToken_default _ _ text h.1 h.2
  · exact fun text h => parseEnumToken_default _ _ text h.1 h.2
  · intro text h
    simp [GeminiFE.generateItemName, h]
  · exact fun text h => parseColorsBE_default text h
  · exact fun text h => parseTypeMap_default _ text h
  · exact fun text h => parseEnumToken_default _ _ text h.1 h.2
  · exact fun text h => parseEnumToken_default _ _ text h.1 h.2
  · intro text h
    simp [OpenAIBE.generateItemName, h]
  · exact fun text h => parseColorsG16_default text h
  · exact fun text h => parseTypeMap_default _ text h
  · exact fun text h => parseEnumToken_default _ _ text h.1 h.2
  · exact fun text h => parseEnumToken_default _ _ text h.1 h.2
  · intro text h
    simp [GeminiBE.generateItemName, h]
  · exact fun i1 i2 st h => parseColorsBE_default _ h
  · exact fun i1 i2 st h => parseTypeMap_default _ _ h
  · exact fun i1 i2 st h => parseEnumToken_default _ _ _ h.1 h.2
  · exact fun i1 i2 st h => parseEnumToken_default _ _ _ h.1 h.2
  · intro i1 i2 st h
    simp [HF.generateItemName, h]

/-- Claim C1 witness: concrete unparseable outputs hit the amended defaults. -/
theorem C1_amended_witness :
    GeminiFE.identifyClothingType (Except.ok "???".data) = "TOP".data ∧
    OpenAIBE.extractColorsFromImage (Except.ok ",".data) = ["Unknown".data] ∧
    OpenAIBE.generateItemName (Except.ok "\x22".data) = "Clothing Item".data ∧
    HF.identifyClothingType (Except.ok "???".data) (Except.error ()) (fun d => d) = "TOP".data := by
  have h := C1_amended
  refine ⟨?_, ?_, ?_, ?_⟩
  · exact h.2.2.2.2.2.1 "???".data (by decide)
  · exact h.2.2.2.2.2.2.2.2.2.1 ",".data (by decide)
  · exact h.2.2.2.2.2.2.2.2.2.2.2.2.2.1 "\x22".data (by decide)
  · exact h.2.2.2.2.2.2.2.2.2.2.2.2.2.2.2.2.2.2.2.2.1 (Except.ok "???".data)
      (Except.error ()) (fun d => d) (by decide)

/-! ## Claim C2 -/

/-- Claim C2 counterexample: the `part_003` laundry handler does not increment
`usageCount` on `mark_laundry` — on an owned item with `usageCount = 0` the
returned item and the stored item still have `usageCount = 0`, contradicting
the claim that both handlers increment on `mark_laundry`. -/
theorem C2_counterexample :
    (laundryActionB (some "u1") [sampleItem] "i1" "mark_laundry").resp =
      Resp.okItem { sampleItem with laundryStatus := "IN_LAUNDRY" } ∧
    ({ sampleItem with laundryStatus := "IN_LAUNDRY" } : Item).usageCount = 0 ∧
    (laundryActionB (some "u1") [sampleItem] "i1" "mark_laundry").db =
      [{ sampleItem with laundryStatus := "IN_LAUNDRY" }] ∧
    sampleItem.usageCount = 0 := by
  refine ⟨by decide, by decide, by decide, by decide⟩

/-- Claim C2 (amended): for an existing item owned by the caller, both laundry
handlers set `laundryStatus` to exactly the action's target state and reject
any other action string with a 400 validation error leaving the database
unchanged; the `part_015` handler increments `usageCount` by 1 on both
`mark_worn` and `mark_laundry`, while the `part_003` handler increments only
on `mark_worn`. -/
theorem C2_amended (uid : String) (db : List Item) (id action : String) (it : Item)
    (hfind : findById db id = some it) (hown : it.userId = uid) :
    (∀ ns ha, targetOfAction action = some (ns, ha) →
      (laundryActionA (some uid) db id action).resp =
        Resp.okItem
          { it with
            laundryStatus := ns
            usageCount := it.usageCount +
              (if action = "mark_worn" ∨ action = "mark_laundry" then 1 else 0) } ∧
      (laundryActionB (some uid) db id action).resp =
        Resp.okItem
          { it with
            laundryStatus := ns
            usageCount := it.usageCount + (if action = "mark_worn" then 1 else 0) }) ∧
    (targetOfAction action = none →
      (laundryActionA (some uid) db id action).resp = Resp.badRequest ∧
      (laundryActionA (some uid) db id action).db = db ∧
      (laundryActionB (some uid) db id action).resp = Resp.badRequest ∧
      (laundryActionB (some uid) db id action).db = db) := by
  constructor
  · intro ns ha htgt
    constructor
    · simp [laundryActionA, hfind, hown, htgt]
    · simp [laundryActionB, hfind, hown, htgt]
  · intro htgt
    refine ⟨?_, ?_, ?_, ?_⟩ <;> simp [laundryActionA, laundryActionB, hfind, hown, htgt]

/-- Claim C2 witness: `mark_worn` moves a concrete owned item to
`IN_WARDROBE` with `usageCount` incremented in both handlers, and an unknown
action string is rejected. -/
theorem C2_amended_witness :
    (laundryActionA (some "u1") [sampleItem] "i1" "mark_worn").resp =
      Resp.okItem { sampleItem with laundryStatus := "IN_WARDROBE", usageCount := 1 } ∧
    (laundryActionB (some "u1") [sampleItem] "i1" "mark_worn").resp =
      Resp.okItem { sampleItem with laundryStatus := "IN_WARDROBE", usageCount := 1 } ∧
    (laundryActionA (some "u1") [sampleItem] "i1" "bogus_action").resp = Resp.badRequest := by
  have h := C2_amended "u1" [sampleItem] "i1" "mark_worn" sampleItem (by decide) rfl
  have hbad := C2_amended "u1" [sampleItem] "i1" "bogus_action" sampleItem (by decide) rfl
  have h12 := h.1 "IN_WARDROBE" "WORN" (by decide)
  refine ⟨?_, ?_, (hbad.2 (by decide)).1⟩
  · have h1 := h12.1
    simpa using h1
  · have h2 := h12.2
    simpa using h2

/-! ## Claim C4 -/

/-- Claim C4 counterexample: in the `part_015` handler, applying
`mark_laundry` to an item already `IN_LAUNDRY` is *not* a state no-op — the
stored item's `usageCount` changes from 5 to 6 (a `MARKED_LAUNDRY` history
entry is still appended). -/
theorem C4_counterexample :
    (laundryActionA (some "u1") [c4Item] "i1" "mark_laundry").db =
      [{ c4Item with usageCount := 6 }] ∧
    (laundryActionA (some "u1") [c4Item] "i1" "mark_laundry").db ≠ [c4Item] ∧
    (laundryActionA (some "u1") [c4Item] "i1" "mark_laundry").history =
      [⟨"i1", "MARKED_LAUNDRY", "Item marked as worn / moved to laundry. Usage count: 6"⟩] := by
  refine ⟨by decide, by decide, by decide⟩

/-- Claim C4 (amended): applying `mark_laundry` to an owned item already
`IN_LAUNDRY` leaves the database unchanged and still appends a
`MARKED_LAUNDRY` history entry in the `part_003` handler; in the `part_015`
handler the `laundryStatus` is unchanged and a `MARKED_LAUNDRY` entry is
still appended, but `usageCount` is incremented, so the item state does
change there. -/
theorem C4_amended (uid : String) (db : List Item) (id : String) (it : Item)
    (hfind : findById db id = some it) (hown : it.userId = uid)
    (hst : it.laundryStatus = "IN_LAUNDRY") :
    (laundryActionB (some uid) db id "mark_laundry").db = db ∧
    (laundryActionB (some uid) db id "mark_laundry").history =
      [⟨id, "MARKED_LAUNDRY", "Status changed to IN_LAUNDRY"⟩] ∧
    (laundryActionA (some uid) db id "mark_laundry").resp =
      Resp.okItem { it with usageCount := it.usageCount + 1 } ∧
    (laundryActionA (some uid) db id "mark_laundry").history =
      [⟨id, "MARKED_LAUNDRY",
        "Item marked as worn / moved to laundry. Usage count: " ++ toString (it.usageCount + 1)⟩] := by
  refine ⟨?_, ?_, ?_, ?_⟩
  · have hnoop : updateById db id (fun x => { x with laundryStatus := "IN_LAUNDRY" }) = db := by
      apply updateById_noop
      intro it2 hit2
      rw [hfind] at hit2
      cases hit2
      rw [← hst]
    simp [laundryActionB, hfind, hown, targetOfAction, hnoop]
  · simp [laundryActionB, hfind, hown, targetOfAction]
  · have heq : ({ it with laundryStatus := "IN_LAUNDRY", usageCount := it.usageCount + 1 } : Item) =
        { it with usageCount := it.usageCount + 1 } := by
      rw [← hst]
    simp +decide [laundryActionA, hfind, hown, targetOfAction, heq]
    exact hst.symm
  · simp +decide [laundryActionA, hfind, hown, targetOfAction]

/-- Claim C4 witness: a concrete already-`IN_LAUNDRY` item is left unchanged
by the `part_003` handler while the history entry is appended. -/
theorem C4_amended_witness :
    (laundryActionB (some "u1") [c4Item] "i1" "mark_laundry").db = [c4Item] ∧
    (laundryActionB (some "u1") [c4Item] "i1" "mark_laundry").history =
      [⟨"i1", "MARKED_LAUNDRY", "Status changed to IN_LAUNDRY"⟩] := by
  have h := C4_amended "u1" [c4Item] "i1" c4Item (by decide) rfl rfl
  exact ⟨h.1, h.2.1⟩

/-! ## Claim C3 -/

/-- Claim C3: across every sequence of API operations (laundry actions on
either handler, item updates including favorite toggles), each stored item's
`usageCount` never decreases, and the general item-update operation cannot
write `usageCount` at all — its update object preserves the field exactly. -/
theorem C3_usage_nondecreasing :
    (∀ ops db, UsageMono db (applyOps db ops)) ∧
    (∀ b x, (applyUpdate b x).usageCount = x.usageCount) := by
  constructor
  · intro ops
    induction ops with
    | nil => exact fun db => usageMono_refl db
    | cons op rest ih =>
      intro db
      exact usageMono_trans (usageMono_applyOp db op) (ih (applyOp db op))
  · intro b x
    rfl

/-- Claim C3 witness: a concrete three-operation sequence on a one-item
database keeps the usage count non-decreasing, and a favorite-toggling update
body leaves `usageCount` exactly unchanged. -/
theorem C3_usage_witness :
    UsageMono [sampleItem]
      (applyOps [sampleItem]
        [ApiOp.laundryA (some "u1") "i1" "mark_worn",
         ApiOp.update (some "u1") "i1" ⟨none, none, none, none, none, some true⟩,
         ApiOp.laundryB (some "u1") "i1" "mark_laundry"]) ∧
    (applyUpdate ⟨none, none, none, none, none, some true⟩ sampleItem).usageCount =
      sampleItem.usageCount := by
  exact ⟨C3_usage_nondecreasing.1 _ _, C3_usage_nondecreasing.2 _ _⟩

/-! ## Claim C5 -/

/-- Claim C5: a mutation (update, delete, laundry action) by an authenticated
caller on an existing item owned by a different user returns the forbidden
outcome, leaves the database unchanged, and is distinguishable from the
not-found outcome returned for a genuinely missing id. -/
theorem C5_ownership (caller : String) (db : List Item) (id action : String) (it : Item)
    (b : UpdateBody)
    (hfind : findById db id = some it) (hown : it.userId ≠ caller) :
    (putItem (some caller) db id b).resp = Resp.forbidden ∧
    (putItem (some caller) db id b).db = db ∧
    (deleteItem (some caller) db id).resp = Resp.forbidden ∧
    (deleteItem (some caller) db id).db = db ∧
    (laundryActionA (some caller) db id action).resp = Resp.forbidden ∧
    (laundryActionA (some caller) db id action).db = db ∧
    Resp.forbidden ≠ Resp.notFound ∧
    (∀ id2, findById db id2 = none →
      (putItem (some caller) db id2 b).resp = Resp.notFound ∧
      (deleteItem (some caller) db id2).resp = Resp.notFound ∧
      (laundryActionA (some caller) db id2 action).resp = Resp.notFound) := by
  refine ⟨?_, ?_, ?_, ?_, ?_, ?_, by simp, fun id2 h2 => ⟨?_, ?_, ?_⟩⟩ <;>
    simp [putItem, deleteItem, laundryActionA, hfind, hown, *]

/-- Claim C5 witness: caller `u2` mutating `u1`'s item gets forbidden with
the database unchanged, while a missing id gets not-found. -/
theorem C5_ownership_witness :
    (putItem (some "u2") [sampleItem] "i1" ⟨none, none, none, none, none, none⟩).resp =
      Resp.forbidden ∧
    (putItem (some "u2") [sampleItem] "i1" ⟨none, none, none, none, none, none⟩).db =
      [sampleItem] ∧
    (deleteItem (some "u2") [sampleItem] "i1").resp = Resp.forbidden ∧
    (putItem (some "u2") [sampleItem] "zzz" ⟨none, none, none, none, none, none⟩).resp =
      Resp.notFound := by
  have h := C5_ownership "u2" [sampleItem] "i1" "mark_worn" sampleItem
    ⟨none, none, none, none, none, none⟩ (by decide) (by decide)
  exact ⟨h.1, h.2.1, h.2.2.1, (h.2.2.2.2.2.2.2 "zzz" (by decide)).1⟩

/-! ## Claims C6 and C7 -/

/-- Claim C6 counterexample. -/
theorem C6_counterexample :
    (suggestPipeline [⟨"", "", ["b", "a"], ""⟩] ["a", "b"]
        (generateFallbackOutfits [itemTopA, itemBottomB])).map Proposal.itemIds =
      [["b", "a"], ["a", "b"]] ∧
    (["b", "a"] : List String) ≠ ["a", "b"] ∧
    (["b", "a"] : List String).Perm ["a", "b"] := by
  refine ⟨by decide, by decide, by decide⟩

/-- Claim C6 amended. -/
theorem C6_amended :
    (∀ suggestions validIds p, p ∈ validateSuggestions suggestions validIds →
      p.itemIds ≠ [] ∧ ∀ i ∈ p.itemIds, i ∈ validIds) ∧
    (∀ suggestions validIds fallback,
      (suggestPipeline suggestions validIds fallback).length ≤ 3) ∧
    (∀ validated fallback,
      validated.Pairwise (fun a b => a.itemIds ≠ b.itemIds) →
      (supplementLoop validated fallback).Pairwise (fun a b => a.itemIds ≠ b.itemIds)) ∧
    (∀ suggestions validIds fallback,
      3 ≤ (validateSuggestions suggestions validIds).length →
      suggestPipeline suggestions validIds fallback =
        (validateSuggestions suggestions validIds).take 3) := by
  refine ⟨?_, ?_, ?_, ?_⟩
  · intro suggestions validIds p hp
    unfold validateSuggestions at hp
    rw [List.mem_filter] at hp
    obtain ⟨hmem, hlen⟩ := hp
    rw [List.mem_map] at hmem
    obtain ⟨q, hq, hpq⟩ := hmem
    constructor
    · intro hnil
      rw [hnil] at hlen
      simp at hlen
    · intro i hi
      have hids : p.itemIds = q.itemIds.filter (fun i => validIds.contains i) := by
        rw [← hpq]
      rw [hids, List.mem_filter] at hi
      have hc := hi.2
      simpa using hc
  · intro suggestions validIds fallback
    simp only [suggestPipeline, List.length_take]
    omega
  · intro validated fallback h
    induction fallback generalizing validated with
    | nil => simpa [supplementLoop] using h
    | cons f fs ih =>
      unfold supplementLoop
      by_cases hany : (validated.any (fun s => s.itemIds == f.itemIds)) = true
      · rw [if_pos hany]
        by_cases h3 : 3 ≤ validated.length
        · rw [if_pos h3]
          exact h
        · rw [if_neg h3]
          exact ih validated h
      · rw [if_neg hany]
        have hne : ∀ a ∈ validated, a.itemIds ≠ f.itemIds := by
          intro a ha heq
          rw [List.any_eq_true] at hany
          exact hany ⟨a, ha, by simp [heq]⟩
        have happ : (validated ++ [f]).Pairwise (fun a b => a.itemIds ≠ b.itemIds) := by
          rw [List.pairwise_append]
          refine ⟨h, by simp, ?_⟩
          intro a ha b hb
          simp only [List.mem_singleton] at hb
          subst hb
          exact hne a ha
        by_cases h3 : 3 ≤ (validated ++ [f]).length
        · rw [if_pos h3]
          exact happ
        · rw [if_neg h3]
          exact ih (validated ++ [f]) happ
  · intro suggestions validIds fallback hval
    simp only [suggestPipeline, if_neg (not_lt.mpr hval)]

/-- Claim C6 witness. -/
theorem C6_amended_witness :
    ((⟨"", "", ["a"], ""⟩ : Proposal).itemIds ≠ [] ∧
      ∀ i ∈ (⟨"", "", ["a"], ""⟩ : Proposal).itemIds, i ∈ ["a"]) ∧
    (suggestPipeline [⟨"", "", ["b", "a"], ""⟩] ["a", "b"]
        (generateFallbackOutfits [itemTopA, itemBottomB])).length ≤ 3 ∧
    (supplementLoop [⟨"", "", ["b", "a"], ""⟩]
        (generateFallbackOutfits [itemTopA, itemBottomB])).Pairwise
      (fun a b => a.itemIds ≠ b.itemIds) := by
  refine ⟨C6_amended.1 [⟨"", "", ["a", "x"], ""⟩] ["a"] _ (by decide),
    C6_amended.2.1 _ _ _,
    C6_amended.2.2.1 _ _ (by simp)⟩

/-- Claim C7. -/
theorem C7_fallback_scenario :
    2 ≤ (generateFallbackOutfits [itemTopA, itemBottomB, itemDressC]).length ∧
    (∃ p ∈ generateFallbackOutfits [itemTopA, itemBottomB, itemDressC],
      p.itemIds = ["a", "b"]) ∧
    (∃ p ∈ generateFallbackOutfits [itemTopA, itemBottomB, itemDressC],
      p.itemIds = ["c"]) := by
  refine ⟨by decide, by decide, by decide⟩


/-! ## Claim C8 supporting lemmas -/

theorem respOk_false_of_retriable {s : Nat} (hs : 500 ≤ s ∨ s = 429) : respOk s = false := by
  simp only [respOk]
  simp only [Bool.and_eq_false_iff, decide_eq_false_iff_not, not_le, not_lt]
  right
  omega

theorem fetchWithBackoff_calls_le (env : Nat → FetchOutcome) :
    ∀ r k d, (fetchWithBackoff env k r d).calls ≤ r + 1 := by
  intro r
  induction r with
  | zero =>
    intro k d
    cases henv : env k with
    | exn => simp [fetchWithBackoff, henv]
    | resp s =>
      by_cases hok : respOk s = true <;>
        by_cases hr : (decide (500 ≤ s) || decide (s = 429)) = true <;>
        simp [fetchWithBackoff, henv, hok, hr]
  | succ n ih =>
    intro k d
    cases henv : env k with
    | exn =>
      have := ih (k + 1) (d * 2)
      simp only [fetchWithBackoff, henv]
      omega
    | resp s =>
      by_cases hok : respOk s = true
      · simp [fetchWithBackoff, henv, hok]
      · by_cases hr : (decide (500 ≤ s) || decide (s = 429)) = true
        · have := ih (k + 1) (d * 2)
          simp only [fetchWithBackoff, henv, hok, hr]
          simp only [Bool.not_false, if_true]
          omega
        · simp [fetchWithBackoff, henv, hok, hr]

theorem fetchWithRetry_calls_le (env : Nat → FetchOutcome) :
    ∀ r k d, (fetchWithRetry env k r d).calls ≤ r + 1 := by
  intro r
  induction r with
  | zero =>
    intro k d
    cases henv : env k with
    | exn => simp [fetchWithRetry, henv]
    | resp s =>
      by_cases hok : respOk s = true <;>
        by_cases hr : (decide (500 ≤ s) || decide (s = 429)) = true <;>
        simp [fetchWithRetry, henv, hok, hr]
  | succ n ih =>
    intro k d
    cases henv : env k with
    | exn =>
      have := ih (k + 1) (d * 2)
      simp only [fetchWithRetry, henv]
      omega
    | resp s =>
      by_cases hok : respOk s = true
      · simp [fetchWithRetry, henv, hok]
      · by_cases hr : (decide (500 ≤ s) || decide (s = 429)) = true
        · have := ih (k + 1) (d * 2)
          simp only [fetchWithRetry, henv, hok, hr]
          simp only [Bool.not_false, if_true]
          omega
        · simp [fetchWithRetry, henv, hok, hr]

theorem geom_cons (d : Nat) (m : Nat) :
    d :: (List.range m).map (fun i => d * 2 * 2 ^ i) =
      (List.range (m + 1)).map (fun i => d * 2 ^ i) := by
  rw [List.range_succ_eq_map, List.map_cons, List.map_map]
  congr 1
  · simp
  · apply List.map_congr_left
    intro i _
    simp [pow_succ]
    ring

theorem fetchWithBackoff_delays (env : Nat → FetchOutcome) :
    ∀ r k d, ∃ n, n ≤ r ∧
      (fetchWithBackoff env k r d).delays = (List.range n).map (fun i => d * 2 ^ i) := by
  intro r
  induction r with
  | zero =>
    intro k d
    refine ⟨0, le_refl 0, ?_⟩
    cases henv : env k with
    | exn => simp [fetchWithBackoff, henv]
    | resp s =>
      by_cases hok : respOk s = true <;>
        by_cases hr : (decide (500 ≤ s) || decide (s = 429)) = true <;>
        simp [fetchWithBackoff, henv, hok, hr]
  | succ n ih =>
    intro k d
    cases henv : env k with
    | exn =>
      obtain ⟨m, hm, hdel⟩ := ih (k + 1) (d * 2)
      refine ⟨m + 1, by omega, ?_⟩
      simp only [fetchWithBackoff, henv]
      rw [hdel]
      exact geom_cons d m
    | resp s =>
      by_cases hok : respOk s = true
      · exact ⟨0, by omega, by simp [fetchWithBackoff, henv, hok]⟩
      · by_cases hr : (decide (500 ≤ s) || decide (s = 429)) = true
        · obtain ⟨m, hm, hdel⟩ := ih (k + 1) (d * 2)
          refine ⟨m + 1, by omega, ?_⟩
          simp only [fetchWithBackoff, henv, hok, hr, Bool.not_false, if_true]
          rw [hdel]
          exact geom_cons d m
        · exact ⟨0, by omega, by simp [fetchWithBackoff, henv, hok, hr]⟩

theorem fetchWithRetry_delays (env : Nat → FetchOutcome) :
    ∀ r k d, ∃ n, n ≤ r ∧
      (fetchWithRetry env k r d).delays = (List.range n).map (fun i => d * 2 ^ i) := by
  intro r
  induction r with
  | zero =>
    intro k d
    refine ⟨0, le_refl 0, ?_⟩
    cases henv : env k with
    | exn => simp [fetchWithRetry, henv]
    | resp s =>
      by_cases hok : respOk s = true <;>
        by_cases hr : (decide (500 ≤ s) || decide (s = 429)) = true <;>
        simp [fetchWithRetry, henv, hok, hr]
  | succ n ih =>
    intro k d
    cases henv : env k with
    | exn =>
      obtain ⟨m, hm, hdel⟩ := ih (k + 1) (d * 2)
      refine ⟨m + 1, by omega, ?_⟩
      simp only [fetchWithRetry, henv]
      rw [hdel]
      exact geom_cons d m
    | resp s =>
      by_cases hok : respOk s = true
      · exact ⟨0, by omega, by simp [fetchWithRetry, henv, hok]⟩
      · by_cases hr : (decide (500 ≤ s) || decide (s = 429)) = true
        · obtain ⟨m, hm, hdel⟩ := ih (k + 1) (d * 2)
          refine ⟨m + 1, by omega, ?_⟩
          simp only [fetchWithRetry, henv, hok, hr, Bool.not_false, if_true]
          rw [hdel]
          exact geom_cons d m
        · exact ⟨0, by omega, by simp [fetchWithRetry, henv, hok, hr]⟩

theorem fetchWithBackoff_exn :
    ∀ r k d, (fetchWithBackoff (fun _ => FetchOutcome.exn) k r d).result = Except.error () ∧
      (fetchWithBackoff (fun _ => FetchOutcome.exn) k r d).calls = r + 1 := by
  intro r
  induction r with
  | zero => intro k d; exact ⟨rfl, rfl⟩
  | succ n ih =>
    intro k d
    obtain ⟨h1, h2⟩ := ih (k + 1) (d * 2)
    constructor
    · show (fetchWithBackoff (fun _ => FetchOutcome.exn) (k + 1) n (d * 2)).result = _
      exact h1
    · show (fetchWithBackoff (fun _ => FetchOutcome.exn) (k + 1) n (d * 2)).calls + 1 = n + 1 + 1
      omega

theorem fetchWithRetry_exn :
    ∀ r k d, (fetchWithRetry (fun _ => FetchOutcome.exn) k r d).result = Except.error () ∧
      (fetchWithRetry (fun _ => FetchOutcome.exn) k r d).calls = r + 1 := by
  intro r
  induction r with
  | zero => intro k d; exact ⟨rfl, rfl⟩
  | succ n ih =>
    intro k d
    obtain ⟨h1, h2⟩ := ih (k + 1) (d * 2)
    constructor
    · show (fetchWithRetry (fun _ => FetchOutcome.exn) (k + 1) n (d * 2)).result = _
      exact h1
    · show (fetchWithRetry (fun _ => FetchOutcome.exn) (k + 1) n (d * 2)).calls + 1 = n + 1 + 1
      omega

theorem fetch_no_retry_4xx (env : Nat → FetchOutcome) (k r d s : Nat)
    (henv : env k = FetchOutcome.resp s) (h4 : 400 ≤ s) (h5 : s < 500) (h429 : s ≠ 429) :
    fetchWithBackoff env k r d = ⟨Except.ok s, 1, []⟩ ∧
    fetchWithRetry env k r d = ⟨Except.ok s, 1, []⟩ := by
  have hok : respOk s = false := by
    simp only [respOk, Bool.and_eq_false_iff, decide_eq_false_iff_not, not_le, not_lt]
    right
    omega
  have hr : (decide (500 ≤ s) || decide (s = 429)) = false := by
    simp only [Bool.or_eq_false_iff, decide_eq_false_iff_not, not_le]
    exact ⟨by omega, h429⟩
  cases r with
  | zero => constructor <;> simp [fetchWithBackoff, fetchWithRetry, henv, hok, hr]
  | succ n => constructor <;> simp [fetchWithBackoff, fetchWithRetry, henv, hok, hr]

theorem fetch_retry_step (env : Nat → FetchOutcome) (k r d s : Nat)
    (henv : env k = FetchOutcome.resp s) (hs : 500 ≤ s ∨ s = 429) :
    fetchWithBackoff env k (r + 1) d =
      ⟨(fetchWithBackoff env (k + 1) r (d * 2)).result,
       (fetchWithBackoff env (k + 1) r (d * 2)).calls + 1,
       d :: (fetchWithBackoff env (k + 1) r (d * 2)).delays⟩ ∧
    fetchWithRetry env k (r + 1) d =
      ⟨(fetchWithRetry env (k + 1) r (d * 2)).result,
       (fetchWithRetry env (k + 1) r (d * 2)).calls + 1,
       d :: (fetchWithRetry env (k + 1) r (d * 2)).delays⟩ := by
  have hok : respOk s = false := respOk_false_of_retriable hs
  have hr : (decide (500 ≤ s) || decide (s = 429)) = true := by
    rcases hs with h | h <;> simp [h]
  constructor <;> simp [fetchWithBackoff, fetchWithRetry, henv, hok, hr]

theorem hf503_calls :
    ∀ f k, (hfAnalyzeImage (fun _ => FetchOutcome.resp 503) (fun _ => none) true f k).calls =
      4 * f := by
  intro f
  induction f with
  | zero => intro k; rfl
  | succ n ih =>
    intro k
    have hstep :
        (hfAnalyzeImage (fun _ => FetchOutcome.resp 503) (fun _ => none) true (n + 1) k).calls =
          4 + (hfAnalyzeImage (fun _ => FetchOutcome.resp 503) (fun _ => none) true n
            (k + 4)).calls := rfl
    rw [hstep, ih]
    omega

/-! ## Claim C8 -/

/-- Claim C8 counterexample: the HuggingFace adapter's `analyzeImage` retries
a 503 response *without any budget*: after each inner `fetchWithRetry` round
(4 calls) it sleeps a constant 5 s and re-invokes itself.  With recursion
depth cut at 10 a persistently-503 environment already receives 40 fetch
calls for one logical operation — more than any 3–5-attempt budget (at most
6 calls) permits. -/
theorem C8_counterexample :
    (hfAnalyzeImage (fun _ => FetchOutcome.resp 503) (fun _ => none) true 10 0).calls = 40 ∧
    ¬((hfAnalyzeImage (fun _ => FetchOutcome.resp 503) (fun _ => none) true 10 0).calls ≤
        backoffDefaultRetries + 1) := by
  refine ⟨by decide, by decide⟩

/-- Claim C8 (amended): the retry wrappers themselves behave as claimed — a
non-429 4xx response is returned to the caller with a single call and no
retry; the total number of fetch calls is bounded by the retry budget plus
one; a 5xx or 429 response with budget remaining triggers one retry with the
delay doubled; the slept delays always form the doubling sequence `d, 2d,
4d, …`; a persistent transport exception exhausts the budget and is
rethrown; and the default budgets are 5 (`fetchWithBackoff`) and 3
(`fetchWithRetry`) retries, within the 3–5 range.  However, the HuggingFace
adapter's `analyzeImage` additionally re-invokes the whole call on 503/429
responses with no budget at all: under a persistently-503 environment its
total number of fetch calls grows as `4 * fuel`, unbounded in the recursion
depth. -/
theorem C8_amended :
    (∀ env k r d s, env k = FetchOutcome.resp s → 400 ≤ s → s < 500 → s ≠ 429 →
      fetchWithBackoff env k r d = ⟨Except.ok s, 1, []⟩ ∧
      fetchWithRetry env k r d = ⟨Except.ok s, 1, []⟩) ∧
    (∀ env k r d, (fetchWithBackoff env k r d).calls ≤ r + 1 ∧
      (fetchWithRetry env k r d).calls ≤ r + 1) ∧
    (∀ env k r d s, env k = FetchOutcome.resp s → (500 ≤ s ∨ s = 429) →
      fetchWithBackoff env k (r + 1) d =
        ⟨(fetchWithBackoff env (k + 1) r (d * 2)).result,
         (fetchWithBackoff env (k + 1) r (d * 2)).calls + 1,
         d :: (fetchWithBackoff env (k + 1) r (d * 2)).delays⟩ ∧
      fetchWithRetry env k (r + 1) d =
        ⟨(fetchWithRetry env (k + 1) r (d * 2)).result,
         (fetchWithRetry env (k + 1) r (d * 2)).calls + 1,
         d :: (fetchWithRetry env (k + 1) r (d * 2)).delays⟩) ∧
    (∀ env k r d,
      (∃ n, n ≤ r ∧
        (fetchWithBackoff env k r d).delays = (List.range n).map (fun i => d * 2 ^ i)) ∧
      (∃ n, n ≤ r ∧
        (fetchWithRetry env k r d).delays = (List.range n).map (fun i => d * 2 ^ i))) ∧
    (∀ k r d,
      (fetchWithBackoff (fun _ => FetchOutcome.exn) k r d).result = Except.error () ∧
      (fetchWithBackoff (fun _ => FetchOutcome.exn) k r d).calls = r + 1 ∧
      (fetchWithRetry (fun _ => FetchOutcome.exn) k r d).result = Except.error () ∧
      (fetchWithRetry (fun _ => FetchOutcome.exn) k r d).calls = r + 1) ∧
    (backoffDefaultRetries = 5 ∧ retryDefaultRetries = 3) ∧
    (∀ f k, (hfAnalyzeImage (fun _ => FetchOutcome.resp 503) (fun _ => none) true f k).calls =
      4 * f) := by
  refine ⟨fetch_no_retry_4xx, ?_, fetch_retry_step, ?_, ?_, ⟨rfl, rfl⟩, hf503_calls⟩
  · intro env k r d
    exact ⟨fetchWithBackoff_calls_le env r k d, fetchWithRetry_calls_le env r k d⟩
  · intro env k r d
    exact ⟨fetchWithBackoff_delays env r k d, fetchWithRetry_delays env r k d⟩
  · intro k r d
    obtain ⟨h1, h2⟩ := fetchWithBackoff_exn r k d
    obtain ⟨h3, h4⟩ := fetchWithRetry_exn r k d
    exact ⟨h1, h2, h3, h4⟩

/-- Claim C8 witness: a 404 response is returned unretried, calls stay within
budget for a persistently-503 environment, and a persistent transport
exception exhausts the default budget and is rethrown. -/
theorem C8_amended_witness :
    (fetchWithBackoff (fun _ => FetchOutcome.resp 404) 0 5 1000 =
      ⟨Except.ok 404, 1, []⟩) ∧
    (fetchWithRetry (fun _ => FetchOutcome.resp 503) 0 3 1000).calls ≤ 3 + 1 ∧
    (fetchWithBackoff (fun _ => FetchOutcome.exn) 0 5 1000).result = Except.error () ∧
    (fetchWithBackoff (fun _ => FetchOutcome.exn) 0 5 1000).calls = 5 + 1 := by
  have h := C8_amended
  refine ⟨?_, ?_, ?_, ?_⟩
  · exact (h.1 (fun _ => FetchOutcome.resp 404) 0 5 1000 404 rfl (by decide) (by decide)
      (by decide)).1
  · exact (h.2.1 (fun _ => FetchOutcome.resp 503) 0 3 1000).2
  · exact (h.2.2.2.2.1 0 5 1000).1
  · exact (h.2.2.2.2.1 0 5 1000).2.1

/-! ## Claims C9 and C10 -/

theorem detectedNameOf_ne_empty (name? : Option String) : detectedNameOf name? ≠ "" := by
  cases name? with
  | none => decide
  | some n =>
    show (if (jsTrim n.data).isEmpty = true then "Untitled Item" else n) ≠ ""
    by_cases hn : (jsTrim n.data).isEmpty = true
    · rw [if_pos hn]
      decide
    · rw [if_neg hn]
      intro h0
      subst h0
      exact hn (by decide)

theorem findById_append_none (db : List Item) (b : Item) (x : String)
    (h : findById db x = none) :
    findById (db ++ [b]) x = if b.id == x then some b else none := by
  unfold findById at h ⊢
  rw [List.find?_append, h]
  cases hbx : b.id == x <;> simp [List.find?, hbx]

/-- Claim C9. -/
theorem C9_creation_defaults :
    (∀ auth body newId db it db2 hist audit,
      createItemPOST auth body newId db = Except.ok (it, db2, hist, audit) →
      it.usageCount = 0 ∧ it.isFavorite = false) ∧
    (∀ body ar fname newId db it resp db2,
      uploadPOST body ar fname newId db = Except.ok (it, resp, db2) →
      it.usageCount = 0 ∧ it.isFavorite = false) := by
  constructor
  · intro auth body newId db it db2 hist audit h
    unfold createItemPOST at h
    split at h
    · simp at h
    · split at h
      · simp at h
      · split at h
        · simp at h
        · simp only [Except.ok.injEq, Prod.mk.injEq] at h
          obtain ⟨h1, -⟩ := h
          rw [← h1]
          exact ⟨rfl, rfl⟩
  · intro body ar fname newId db it resp db2 h
    unfold uploadPOST at h
    split at h
    · simp at h
    · split at h
      · simp at h
      · split at h
        · simp at h
        · simp only [Except.ok.injEq, Prod.mk.injEq] at h
          obtain ⟨h1, -⟩ := h
          rw [← h1]
          exact ⟨rfl, rfl⟩

/-- Claim C9 witness. -/
theorem C9_creation_defaults_witness :
    c9Item.usageCount = 0 ∧ c9Item.isFavorite = false :=
  C9_creation_defaults.1 (some "u1") c9Body "n1" [] c9Item [c9Item]
    [⟨"n1", "CREATED", "Item created"⟩] ["CREATE_ITEM"] rfl

/-- Claim C10. -/
theorem C10_upload_hides_name (body : UploadBody) (ar : Option String) (fname newId : String)
    (db : List Item) (it : Item) (resp : UploadResponse) (db2 : List Item)
    (h : uploadPOST body ar fname newId db = Except.ok (it, resp, db2))
    (hfresh : findById db newId = none) :
    resp.itemName = "" ∧ resp.aiName = "" ∧ it.name ≠ "" ∧
    getItemById (some it.userId) db2 newId = Resp.okItem it := by
  unfold uploadPOST at h
  split at h
  · simp at h
  · split at h
    · simp at h
    · split at h
      · simp at h
      · simp only [Except.ok.injEq, Prod.mk.injEq] at h
        obtain ⟨h1, h2, h3⟩ := h
        refine ⟨by rw [← h2], by rw [← h2], ?_, ?_⟩
        · rw [← h1]
          exact detectedNameOf_ne_empty body.name
        · rw [← h3, ← h1]
          unfold getItemById
          rw [findById_append_none db _ newId hfresh]
          simp

/-- Claim C10 witness. -/
theorem C10_upload_hides_name_witness :
    c10Resp.itemName = "" ∧ c10Resp.aiName = "" ∧ c10Item.name ≠ "" ∧
    getItemById (some c10Item.userId) [c10Item] "n2" = Resp.okItem c10Item := by
  exact C10_upload_hides_name c10Body none "f.jpg" "n2" [] c10Item c10Resp [c10Item]
    (by decide) rfl

end Wardrobe
